import Mathlib

/-!
Shallow embedding of the OpenGL backend core of `ps-plus`
(`src/render/opengl/gl_engine.cpp`), developed to verify the natural-language
specification of the repository.

Modelling conventions:
* 32-bit scalar components of device buffers are modelled as `Nat` cells
  holding the component's bit pattern / value; device copies are bit-exact,
  so `glBufferSubData` / `glGetBufferSubData` round trips are identities on
  cells.  An unwritten cell is `none`.
* Machine sizes (`size_t`, `uint64_t`) are modelled as `Nat`; the signed
  `int64_t dataSize` member is `Int` (initialised to `-1`, as in the C++
  base class `AttributeBuffer`).  Conversions to `unsigned int` are modelled
  with an explicit `% 2^32`.
* Functions that `throw` are modelled in `Except String`.
* The IEEE double→float narrowing performed by `static_cast<float>` (and the
  reverse widening) is external to the repository; operations that use it
  take the conversion as an explicit function parameter.
-/

namespace PsPlus

/-- `RenderDataType` enum (declared in `polyscope/render/engine.h`, used
throughout `gl_engine.cpp`). -/
inductive RenderDataType where
  | Vector2Float
  | Vector3Float
  | Vector4Float
  | Matrix44Float
  | Float
  | Int
  | UInt
  | Vector2UInt
  | Vector3UInt
  | Vector4UInt
  deriving DecidableEq

/-- `DrawMode` enum, cases as used in `GLShaderProgram::draw()`. -/
inductive DrawMode where
  | Points
  | Triangles
  | Lines
  | TrianglesAdjacency
  | LinesAdjacency
  | IndexedLines
  | IndexedLineStrip
  | IndexedLinesAdjacency
  | IndexedLineStripAdjacency
  | IndexedTriangles
  | TrianglesInstanced
  | TriangleStripInstanced
  deriving DecidableEq

/-- `ShaderReplacementDefaults` enum, cases as used in
`GLEngine::programKeyFromRules` and `GLEngine::getCompiledProgram`. -/
inductive ShaderReplacementDefaults where
  | SceneObject
  | SceneObjectNoSlice
  | Pick
  | Process
  | None
  deriving DecidableEq

/-- `ShaderStageType` enum (vertex/geometry/fragment). -/
inductive ShaderStageType where
  | Vertex
  | Geometry
  | Fragment
  deriving DecidableEq

-- =============================================================
-- =================== Attribute buffer ========================
-- =============================================================

/-- Model of `GLAttributeBuffer` (with the inherited `AttributeBuffer` state).
`store` is the device-side buffer as a list of 32-bit component cells;
`none` marks storage allocated by `glBufferData(..., NULL, ...)` that has not
been written.  `bufferSize` is counted in whole elements of the written type,
exactly like the C++ member; `store.length` tracks the byte size divided by 4.
`dataSize` is the logical element count, `-1` before the first write. -/
structure GLAttributeBuffer where
  dataType : RenderDataType
  arrayCount : Nat
  setFlag : Bool := false
  dataSize : Int := -1
  bufferSize : Nat := 0
  store : List (Option Nat) := []
  deriving DecidableEq

namespace GLAttributeBuffer

/-- Constructor `GLAttributeBuffer(dataType_, arrayCount_)`: fresh buffer,
base-class members at their initial values. -/
def create (dataType_ : RenderDataType) (arrayCount_ : Nat) : GLAttributeBuffer :=
  { dataType := dataType_, arrayCount := arrayCount_ }

/-- `AttributeBuffer::isSet()` accessor. -/
def isSet (b : GLAttributeBuffer) : Bool := b.setFlag

/-- `AttributeBuffer::getDataSize()` accessor. -/
def getDataSize (b : GLAttributeBuffer) : Int := b.dataSize

/-- `AttributeBuffer::getArrayCount()` accessor. -/
def getArrayCount (b : GLAttributeBuffer) : Nat := b.arrayCount

/-- `AttributeBuffer::getType()` accessor. -/
def getType (b : GLAttributeBuffer) : RenderDataType := b.dataType

/-- `GLAttributeBuffer::checkType`: throws `std::invalid_argument` on a
declared-type mismatch. -/
def checkType (b : GLAttributeBuffer) (targetType : RenderDataType) : Except String Unit :=
  if b.dataType ≠ targetType then
    .error "Tried to set GLAttributeBuffer with wrong type"
  else .ok ()

/-- `GLAttributeBuffer::checkArray`: throws on an array-count mismatch. -/
def checkArray (b : GLAttributeBuffer) (testArrayCount : Nat) : Except String Unit :=
  if testArrayCount ≠ b.arrayCount then
    .error "Tried to set GLAttributeBuffer with wrong array count"
  else .ok ()

/-- `GLAttributeBuffer::setData_helper<T>`: the template instantiated at an
element type `T` occupying `m` 32-bit cells.  `data` is the input vector, each
element given as its list of `m` component cells.  Mirrors the source: if the
buffer is unset or the incoming length exceeds `bufferSize`, reallocate to
`newSize = max(data.size(), 2*bufferSize)` elements (`glBufferData` leaves the
fresh storage unwritten), then `dataSize = data.size()` and `glBufferSubData`
writes the element image over the front of the store. -/
def setData_helper (m : Nat) (b : GLAttributeBuffer) (data : List (List Nat)) :
    GLAttributeBuffer :=
  let b1 : GLAttributeBuffer :=
    if !b.setFlag || data.length > b.bufferSize then
      let newSize : Nat := max data.length (2 * b.bufferSize)
      { b with setFlag := true, bufferSize := newSize,
               store := List.replicate (newSize * m) (none : Option Nat) }
    else b
  let flat : List Nat := data.flatten
  { b1 with dataSize := (data.length : Int),
            store := flat.map some ++ b1.store.drop flat.length }

/-- Component-cell image of a `glm` 2-vector. -/
def cells2 (v : Nat × Nat) : List Nat := [v.1, v.2]

/-- Component-cell image of a `glm` 3-vector. -/
def cells3 (v : Nat × Nat × Nat) : List Nat := [v.1, v.2.1, v.2.2]

/-- Component-cell image of a `glm` 4-vector. -/
def cells4 (v : Nat × Nat × Nat × Nat) : List Nat := [v.1, v.2.1, v.2.2.1, v.2.2.2]

/-- `setData(const std::vector<glm::vec2>&)`. -/
def setData_vec2 (b : GLAttributeBuffer) (data : List (Nat × Nat)) :
    Except String GLAttributeBuffer := do
  b.checkType .Vector2Float
  pure (setData_helper 2 b (data.map cells2))

/-- `setData(const std::vector<glm::vec3>&)`. -/
def setData_vec3 (b : GLAttributeBuffer) (data : List (Nat × Nat × Nat)) :
    Except String GLAttributeBuffer := do
  b.checkType .Vector3Float
  pure (setData_helper 3 b (data.map cells3))

/-- `setData(const std::vector<std::array<glm::vec3, k>>&)` for `k = 2, 3, 4`:
checks the declared type and the array count, then runs the helper at element
type `std::array<glm::vec3, k>` (which occupies `3*k` cells). -/
def setData_vec3arr (k : Nat) (b : GLAttributeBuffer)
    (data : List (List (Nat × Nat × Nat))) : Except String GLAttributeBuffer := do
  b.checkType .Vector3Float
  b.checkArray k
  pure (setData_helper (3 * k) b (data.map (fun a => (a.map cells3).flatten)))

/-- `setData(const std::vector<glm::vec4>&)`. -/
def setData_vec4 (b : GLAttributeBuffer) (data : List (Nat × Nat × Nat × Nat)) :
    Except String GLAttributeBuffer := do
  b.checkType .Vector4Float
  pure (setData_helper 4 b (data.map cells4))

/-- `setData(const std::vector<float>&)`. -/
def setData_float (b : GLAttributeBuffer) (data : List Nat) :
    Except String GLAttributeBuffer := do
  b.checkType .Float
  pure (setData_helper 1 b (data.map (fun x => [x])))

/-- `setData(const std::vector<double>&)`: converts the input to floats with
`static_cast<float>` (modelled by the explicit narrowing parameter `d2f` on
64-bit patterns) and forwards to the float helper. -/
def setData_double (d2f : Nat → Nat) (b : GLAttributeBuffer) (data : List Nat) :
    Except String GLAttributeBuffer := do
  b.checkType .Float
  let floatData : List Nat := data.map d2f
  pure (setData_helper 1 b (floatData.map (fun x => [x])))

/-- `setData(const std::vector<int32_t>&)`. -/
def setData_int (b : GLAttributeBuffer) (data : List Nat) :
    Except String GLAttributeBuffer := do
  b.checkType .Int
  pure (setData_helper 1 b (data.map (fun x => [x])))

/-- `setData(const std::vector<uint32_t>&)`. -/
def setData_uint (b : GLAttributeBuffer) (data : List Nat) :
    Except String GLAttributeBuffer := do
  b.checkType .UInt
  pure (setData_helper 1 b (data.map (fun x => [x])))

/-- `setData(const std::vector<glm::uvec2>&)`. -/
def setData_uvec2 (b : GLAttributeBuffer) (data : List (Nat × Nat)) :
    Except String GLAttributeBuffer := do
  b.checkType .Vector2UInt
  pure (setData_helper 2 b (data.map cells2))

/-- `setData(const std::vector<glm::uvec3>&)`. -/
def setData_uvec3 (b : GLAttributeBuffer) (data : List (Nat × Nat × Nat)) :
    Except String GLAttributeBuffer := do
  b.checkType .Vector3UInt
  pure (setData_helper 3 b (data.map cells3))

/-- `setData(const std::vector<glm::uvec4>&)`. -/
def setData_uvec4 (b : GLAttributeBuffer) (data : List (Nat × Nat × Nat × Nat)) :
    Except String GLAttributeBuffer := do
  b.checkType .Vector4UInt
  pure (setData_helper 4 b (data.map cells4))

/-- `GLAttributeBuffer::getData_helper<T>` at an element type occupying `m`
cells: fails with `exception("bad getData")` unless the buffer is set and
`ind < size_t(getDataSize() * getArrayCount())`; otherwise reads the `m` cells
of element `ind` from the device store (reads past the allocation yield
indeterminate cells, modelled by `none`). -/
def getData_helper (m : Nat) (b : GLAttributeBuffer) (ind : Nat) :
    Except String (List (Option Nat)) :=
  if !b.isSet || ind ≥ (b.getDataSize * (b.getArrayCount : Int)).toNat then
    .error "bad getData"
  else
    .ok ((List.range m).map (fun i => b.store.getD (ind * m + i) none))

/-- `GLAttributeBuffer::getDataRange_helper<T>` at an element type occupying
`m` cells: bounds-checked against `getDataSize() * getArrayCount()` in whole
`T` units, then reads `count` consecutive elements starting at `start`. -/
def getDataRange_helper (m : Nat) (b : GLAttributeBuffer) (start count : Nat) :
    Except String (List (Option Nat)) :=
  if !b.isSet || start + count > (b.getDataSize * (b.getArrayCount : Int)).toNat then
    .error "bad getData"
  else
    .ok ((List.range (count * m)).map (fun i => b.store.getD (start * m + i) none))

/-- Reassemble a cell list into 1-component elements. -/
def decode1 : List (Option Nat) → List (Option Nat)
  | [] => []
  | a :: rest => a :: decode1 rest

/-- Reassemble a cell list into 2-component elements (`none` if any component
cell is indeterminate). -/
def decode2 : List (Option Nat) → List (Option (Nat × Nat))
  | a :: b :: rest =>
    (match a, b with
     | some x, some y => some (x, y)
     | _, _ => none) :: decode2 rest
  | _ => []

/-- Reassemble a cell list into 3-component elements. -/
def decode3 : List (Option Nat) → List (Option (Nat × Nat × Nat))
  | a :: b :: c :: rest =>
    (match a, b, c with
     | some x, some y, some z => some (x, y, z)
     | _, _, _ => none) :: decode3 rest
  | _ => []

/-- Reassemble a cell list into 4-component elements. -/
def decode4 : List (Option Nat) → List (Option (Nat × Nat × Nat × Nat))
  | a :: b :: c :: d :: rest =>
    (match a, b, c, d with
     | some x, some y, some z, some w => some (x, y, z, w)
     | _, _, _, _ => none) :: decode4 rest
  | _ => []

/-- `getData_float`: type-gated on `RenderDataType::Float`. -/
def getData_float (b : GLAttributeBuffer) (ind : Nat) :
    Except String (List (Option Nat)) :=
  if b.getType ≠ .Float then .error "bad getData type"
  else getData_helper 1 b ind

/-- `getData_double`: simply forwards to `getData_float` (widening of the read
float is the caller-visible cast, applied to the returned value). -/
def getData_double (f2d : Nat → Nat) (b : GLAttributeBuffer) (ind : Nat) :
    Except String (List (Option Nat)) :=
  (getData_float b ind).map (fun l => l.map (Option.map f2d))

/-- `getData_vec2`: type-gated on `Vector2Float`. -/
def getData_vec2 (b : GLAttributeBuffer) (ind : Nat) :
    Except String (List (Option (Nat × Nat))) :=
  if b.getType ≠ .Vector2Float then .error "bad getData type"
  else (getData_helper 2 b ind).map decode2

/-- `getData_vec3`: type-gated on `Vector3Float`. -/
def getData_vec3 (b : GLAttributeBuffer) (ind : Nat) :
    Except String (List (Option (Nat × Nat × Nat))) :=
  if b.getType ≠ .Vector3Float then .error "bad getData type"
  else (getData_helper 3 b ind).map decode3

/-- `getData_vec4`: type-gated on `Vector4Float`. -/
def getData_vec4 (b : GLAttributeBuffer) (ind : Nat) :
    Except String (List (Option (Nat × Nat × Nat × Nat))) :=
  if b.getType ≠ .Vector4Float then .error "bad getData type"
  else (getData_helper 4 b ind).map decode4

/-- `getData_int`: type-gated on `Int`. -/
def getData_int (b : GLAttributeBuffer) (ind : Nat) :
    Except String (List (Option Nat)) :=
  if b.getType ≠ .Int then .error "bad getData type"
  else getData_helper 1 b ind

/-- `getData_uint32`: type-gated on `UInt`. -/
def getData_uint32 (b : GLAttributeBuffer) (ind : Nat) :
    Except String (List (Option Nat)) :=
  if b.getType ≠ .UInt then .error "bad getData type"
  else getData_helper 1 b ind

/-- `getData_uvec2`: as written in the source, type-gated on `Vector2Float`
(not `Vector2UInt`), then reads one `glm::uvec2` (two cells, reinterpreted). -/
def getData_uvec2 (b : GLAttributeBuffer) (ind : Nat) :
    Except String (List (Option (Nat × Nat))) :=
  if b.getType ≠ .Vector2Float then .error "bad getData type"
  else (getData_helper 2 b ind).map decode2

/-- `getData_uvec3`: type-gated on `Vector3Float` in the source. -/
def getData_uvec3 (b : GLAttributeBuffer) (ind : Nat) :
    Except String (List (Option (Nat × Nat × Nat))) :=
  if b.getType ≠ .Vector3Float then .error "bad getData type"
  else (getData_helper 3 b ind).map decode3

/-- `getData_uvec4`: type-gated on `Vector4Float` in the source. -/
def getData_uvec4 (b : GLAttributeBuffer) (ind : Nat) :
    Except String (List (Option (Nat × Nat × Nat × Nat))) :=
  if b.getType ≠ .Vector4Float then .error "bad getData type"
  else (getData_helper 4 b ind).map decode4

/-- `getDataRange_float`: type-gated on `Float`. -/
def getDataRange_float (b : GLAttributeBuffer) (start count : Nat) :
    Except String (List (Option Nat)) :=
  if b.getType ≠ .Float then .error "bad getData type"
  else getDataRange_helper 1 b start count

/-- `getDataRange_double`: reads floats via `getDataRange_float` and widens
each value with `static_cast<double>` (the explicit parameter `f2d`). -/
def getDataRange_double (f2d : Nat → Nat) (b : GLAttributeBuffer)
    (start count : Nat) : Except String (List (Option Nat)) :=
  (getDataRange_float b start count).map (fun l => l.map (Option.map f2d))

/-- `getDataRange_vec2`: type-gated on `Vector2Float`. -/
def getDataRange_vec2 (b : GLAttributeBuffer) (start count : Nat) :
    Except String (List (Option (Nat × Nat))) :=
  if b.getType ≠ .Vector2Float then .error "bad getData type"
  else (getDataRange_helper 2 b start count).map decode2

/-- `getDataRange_vec3`: type-gated on `Vector3Float`. -/
def getDataRange_vec3 (b : GLAttributeBuffer) (start count : Nat) :
    Except String (List (Option (Nat × Nat × Nat))) :=
  if b.getType ≠ .Vector3Float then .error "bad getData type"
  else (getDataRange_helper 3 b start count).map decode3

/-- `getDataRange_vec4`: type-gated on `Vector4Float`. -/
def getDataRange_vec4 (b : GLAttributeBuffer) (start count : Nat) :
    Except String (List (Option (Nat × Nat × Nat × Nat))) :=
  if b.getType ≠ .Vector4Float then .error "bad getData type"
  else (getDataRange_helper 4 b start count).map decode4

/-- `getDataRange_int`: type-gated on `Int`. -/
def getDataRange_int (b : GLAttributeBuffer) (start count : Nat) :
    Except String (List (Option Nat)) :=
  if b.getType ≠ .Int then .error "bad getData type"
  else getDataRange_helper 1 b start count

/-- `getDataRange_uint32`: type-gated on `UInt`. -/
def getDataRange_uint32 (b : GLAttributeBuffer) (start count : Nat) :
    Except String (List (Option Nat)) :=
  if b.getType ≠ .UInt then .error "bad getData type"
  else getDataRange_helper 1 b start count

/-- `getDataRange_uvec2`: type-gated on `Vector2UInt`. -/
def getDataRange_uvec2 (b : GLAttributeBuffer) (start count : Nat) :
    Except String (List (Option (Nat × Nat))) :=
  if b.getType ≠ .Vector2UInt then .error "bad getData type"
  else (getDataRange_helper 2 b start count).map decode2

/-- `getDataRange_uvec3`: type-gated on `Vector3UInt`. -/
def getDataRange_uvec3 (b : GLAttributeBuffer) (start count : Nat) :
    Except String (List (Option (Nat × Nat × Nat))) :=
  if b.getType ≠ .Vector3UInt then .error "bad getData type"
  else (getDataRange_helper 3 b start count).map decode3

/-- `getDataRange_uvec4`: type-gated on `Vector4UInt` (the source also
re-binds the buffer first, a device-state side effect with no data effect). -/
def getDataRange_uvec4 (b : GLAttributeBuffer) (start count : Nat) :
    Except String (List (Option (Nat × Nat × Nat × Nat))) :=
  if b.getType ≠ .Vector4UInt then .error "bad getData type"
  else (getDataRange_helper 4 b start count).map decode4

end GLAttributeBuffer

-- =============================================================
-- ==================  Shader Program  =========================
-- =============================================================

/-- `GLShaderUniform` interface entry (declared in `gl_engine.h`): name,
declared type, set flag, resolved native location (`-1` = absent). -/
structure GLShaderUniform where
  name : String
  type : RenderDataType
  isSet : Bool
  location : Int
  deriving DecidableEq

/-- `GLTextureBuffer`, reduced to the identity and state observable by the
shader-program texture operations: a handle identity and its dimension. -/
structure GLTextureBuffer where
  id : Nat
  dim : Int
  deriving DecidableEq

/-- Provenance of the texture bound to a `GLShaderTexture` slot.  The source
keeps a raw pointer `textureBuffer` plus an owning pointer
`textureBufferOwned`; the model merges them into one value that records where
the bound texture came from, which is what the texture-setting claims
observe. -/
inductive TexSource where
  | external (t : GLTextureBuffer)
  | owned2D (withAlpha useMipMap repeatTex : Bool) (width height : Nat) (texData : List Nat)
  | owned1D (length : Nat) (texData : List Nat)
  | ownedColormap (colormapName : String)
  deriving DecidableEq

/-- `GLShaderTexture` interface entry: name, dimension, sequential texture
unit index, set flag, bound texture, resolved location (`-1` = absent). -/
structure GLShaderTexture where
  name : String
  dim : Int
  index : Nat
  isSet : Bool
  textureBuffer : Option TexSource
  location : Int
  deriving DecidableEq

/-- `GLShaderAttribute` interface entry: name, declared type, array count,
resolved location (`-1` = absent), bound buffer (null until set). -/
structure GLShaderAttribute where
  name : String
  type : RenderDataType
  arrayCount : Nat
  location : Int
  buff : Option GLAttributeBuffer
  deriving DecidableEq

/-- `INVALID_IND_32` sentinel (`std::numeric_limits<uint32_t>::max()`,
declared in the utilities header): marks `instanceCount` as unset. -/
def INVALID_IND_32 : Nat := 2 ^ 32 - 1

/-- Model of `GLShaderProgram`: per-instance copies of the compiled program's
uniform/attribute/texture interface plus index state and the draw length
computed by `validateData`.  `useIndex` is set from the draw mode by the
`ShaderProgram` base-class constructor. -/
structure GLShaderProgram where
  drawMode : DrawMode
  uniforms : List GLShaderUniform
  attributes : List GLShaderAttribute
  textures : List GLShaderTexture
  useIndex : Bool
  indexBuffer : Option GLAttributeBuffer := none
  indexSizeMult : Nat := 0
  instanceCount : Nat := INVALID_IND_32
  drawDataLength : Nat := 0
  deriving DecidableEq

namespace GLShaderProgram

/-- `GLShaderProgram::hasUniform`: true iff some uniform has the name and a
resolved location. -/
def hasUniform (p : GLShaderProgram) (name : String) : Bool :=
  p.uniforms.any (fun u => u.name = name && u.location ≠ -1)

/-- `GLShaderProgram::hasAttribute`. -/
def hasAttribute (p : GLShaderProgram) (name : String) : Bool :=
  p.attributes.any (fun a => a.name = name && a.location ≠ -1)

/-- `GLShaderProgram::hasTexture`. -/
def hasTexture (p : GLShaderProgram) (name : String) : Bool :=
  p.textures.any (fun t => t.name = name && t.location ≠ -1)

/-- Loop body shared by every `GLShaderProgram::setUniform` overload: find the
uniform by name; if its location is `-1` return silently; on a declared-type
mismatch throw; otherwise write the value (device side) and mark it set; if no
uniform has the name, throw.  Each C++ overload instantiates `expected` with
the `RenderDataType` it handles. -/
def setUniformList (expected : RenderDataType) (name : String) :
    List GLShaderUniform → Except String (List GLShaderUniform)
  | [] => .error ("Tried to set nonexistent uniform with name " ++ name)
  | u :: rest =>
    if u.name = name then
      if u.location = -1 then .ok (u :: rest)
      else if u.type = expected then .ok ({ u with isSet := true } :: rest)
      else .error "Tried to set GLShaderUniform with wrong type"
    else (setUniformList expected name rest).map (u :: ·)

/-- `GLShaderProgram::setUniform` (family of overloads, see
`setUniformList`). -/
def setUniform (expected : RenderDataType) (p : GLShaderProgram) (name : String) :
    Except String GLShaderProgram :=
  (setUniformList expected name p.uniforms).map (fun us => { p with uniforms := us })

/-- `GLShaderProgram::ensureBufferExists`: lazily create the backing buffer
(of the attribute's declared type and array count) for a resolved attribute
that has none. -/
def ensureBufferExists (a : GLShaderAttribute) : GLShaderAttribute :=
  if a.location ≠ -1 && a.buff.isNone then
    { a with buff := some (GLAttributeBuffer.create a.type a.arrayCount) }
  else a

/-- Loop body shared by the data-vector `GLShaderProgram::setAttribute`
overloads: find an attribute whose name matches AND whose location is
resolved, ensure its buffer exists and pass the data through to the buffer's
typed `setData`; if the loop finds no such attribute (including when the only
attribute with the name was optimized out, location `-1`), throw
"nonexistent attribute".  The per-overload typed buffer write is the
parameter `write`. -/
def setAttributeDataList (write : GLAttributeBuffer → Except String GLAttributeBuffer)
    (name : String) :
    List GLShaderAttribute → Except String (List GLShaderAttribute)
  | [] => .error ("Tried to set nonexistent attribute with name " ++ name)
  | a :: rest =>
    if a.name = name && a.location ≠ -1 then
      let a1 := ensureBufferExists a
      match a1.buff with
      | some b => (write b).map (fun b1 => { a1 with buff := some b1 } :: rest)
      | none => .error ("Tried to set nonexistent attribute with name " ++ name)
    else (setAttributeDataList write name rest).map (a :: ·)

/-- `GLShaderProgram::setAttribute(name, data)` (family of data-vector
overloads). -/
def setAttribute_data (write : GLAttributeBuffer → Except String GLAttributeBuffer)
    (p : GLShaderProgram) (name : String) : Except String GLShaderProgram :=
  (setAttributeDataList write name p.attributes).map
    (fun as => { p with attributes := as })

-- `renderDataTypeCountCompatbility` lives in `engine.cpp`, outside this
-- repository's sources; `setAttribute`'s and `validateData`'s uses of it are
-- parameterised over the function.

/-- Loop body of `GLShaderProgram::setAttribute(name, externalBuffer)`: find
the attribute by name; if it was optimized out (location `-1`) do nothing;
reject an incompatible buffer type (`compat = 0`); reject a second set of the
same attribute; otherwise attach the external buffer.  If no attribute has
the name, throw. -/
def setAttributeBufferList (compat : RenderDataType → RenderDataType → Int)
    (externalBuffer : GLAttributeBuffer) (name : String) :
    List GLShaderAttribute → Except String (List GLShaderAttribute)
  | [] => .error ("Tried to set nonexistent attribute with name " ++ name)
  | a :: rest =>
    if a.name = name then
      if a.location = -1 then .ok (a :: rest)
      else if compat a.type externalBuffer.dataType = 0 then
        .error ("Tried to set attribute " ++ name ++ " to incompatibile type.")
      else if a.buff.isSome then
        .error ("attribute " ++ name ++ " is already set")
      else .ok ({ a with buff := some externalBuffer } :: rest)
    else (setAttributeBufferList compat externalBuffer name rest).map (a :: ·)

/-- `GLShaderProgram::setAttribute(name, externalBuffer)`. -/
def setAttribute_buffer (compat : RenderDataType → RenderDataType → Int)
    (p : GLShaderProgram) (name : String) (externalBuffer : GLAttributeBuffer) :
    Except String GLShaderProgram :=
  (setAttributeBufferList compat externalBuffer name p.attributes).map
    (fun as => { p with attributes := as })

/-- `GLShaderProgram::setTexture1D`: the source's first statement throws
unconditionally ("This code hasn't been testded yet."). -/
def setTexture1D (_p : GLShaderProgram) (_name : String) (_texData : List Nat)
    (_length : Nat) : Except String GLShaderProgram :=
  .error "This code hasn't been testded yet."

/-- Loop body of `GLShaderProgram::setTexture2D`: skip entries whose name does
not match or whose location is `-1`; an already-set slot throws "Attempted to
set texture twice"; a dimension other than 2 throws; otherwise construct and
own a new texture from the raw data and mark the slot set.  Falling off the
loop throws "No texture with name". -/
def setTexture2DList (name : String) (texData : List Nat) (width height : Nat)
    (withAlpha useMipMap repeatTex : Bool) :
    List GLShaderTexture → Except String (List GLShaderTexture)
  | [] => .error ("No texture with name " ++ name)
  | t :: rest =>
    if t.name ≠ name || t.location = -1 then
      (setTexture2DList name texData width height withAlpha useMipMap repeatTex rest).map
        (t :: ·)
    else if t.isSet then .error "Attempted to set texture twice"
    else if t.dim ≠ 2 then .error "Tried to use texture with mismatched dimension"
    else
      .ok ({ t with
              textureBuffer := some (.owned2D withAlpha useMipMap repeatTex width height texData),
              isSet := true } :: rest)

/-- `GLShaderProgram::setTexture2D`. -/
def setTexture2D (p : GLShaderProgram) (name : String) (texData : List Nat)
    (width height : Nat) (withAlpha useMipMap repeatTex : Bool) :
    Except String GLShaderProgram :=
  (setTexture2DList name texData width height withAlpha useMipMap repeatTex p.textures).map
    (fun ts => { p with textures := ts })

/-- Loop body of `GLShaderProgram::setTextureFromBuffer`: skip entries whose
name does not match or whose location is `-1`; a dimension mismatch with the
supplied buffer throws; otherwise bind the external texture and mark the slot
set — note there is NO already-set check on this path.  Falling off the loop
throws "No texture with name". -/
def setTextureFromBufferList (name : String) (textureBuffer : GLTextureBuffer) :
    List GLShaderTexture → Except String (List GLShaderTexture)
  | [] => .error ("No texture with name " ++ name)
  | t :: rest =>
    if t.name ≠ name || t.location = -1 then
      (setTextureFromBufferList name textureBuffer rest).map (t :: ·)
    else if t.dim ≠ textureBuffer.dim then
      .error "Tried to use texture with mismatched dimension"
    else
      .ok ({ t with textureBuffer := some (.external textureBuffer), isSet := true } :: rest)

/-- `GLShaderProgram::setTextureFromBuffer`. -/
def setTextureFromBuffer (p : GLShaderProgram) (name : String)
    (textureBuffer : GLTextureBuffer) : Except String GLShaderProgram :=
  (setTextureFromBufferList name textureBuffer p.textures).map
    (fun ts => { p with textures := ts })

/-- Loop body of `GLShaderProgram::setTextureFromColormap`: skip entries whose
name does not match or whose location is `-1`; an already-set slot throws
UNLESS `allowUpdate`; a dimension other than 1 throws; otherwise build and own
a fresh texture from the named colormap's sample table (the colormap registry
is an external collaborator; the model records the colormap name) and mark the
slot set. -/
def setTextureFromColormapList (name : String) (colormapName : String)
    (allowUpdate : Bool) :
    List GLShaderTexture → Except String (List GLShaderTexture)
  | [] => .error ("No texture with name " ++ name)
  | t :: rest =>
    if t.name ≠ name || t.location = -1 then
      (setTextureFromColormapList name colormapName allowUpdate rest).map (t :: ·)
    else if t.isSet && !allowUpdate then .error "Attempted to set texture twice"
    else if t.dim ≠ 1 then .error "Tried to use texture with mismatched dimension"
    else
      .ok ({ t with textureBuffer := some (.ownedColormap colormapName), isSet := true } :: rest)

/-- `GLShaderProgram::setTextureFromColormap`. -/
def setTextureFromColormap (p : GLShaderProgram) (name : String)
    (colormapName : String) (allowUpdate : Bool) : Except String GLShaderProgram :=
  (setTextureFromColormapList name colormapName allowUpdate p.textures).map
    (fun ts => { p with textures := ts })

/-- `GLShaderProgram::textureIsSet`. -/
def textureIsSet (p : GLShaderProgram) (name : String) : Bool :=
  match p.textures.find? (fun t => t.name = name && t.location ≠ -1) with
  | some t => t.isSet
  | none => false

/-- Uniform loop of `GLShaderProgram::validateData`: skip unresolved
uniforms, throw on the first resolved-but-unset one. -/
def validateUniforms : List GLShaderUniform → Except String Unit
  | [] => .ok ()
  | u :: rest =>
    if u.location = -1 then validateUniforms rest
    else if !u.isSet then .error ("Uniform " ++ u.name ++ " has not been set")
    else validateUniforms rest

/-- Attribute loop of `GLShaderProgram::validateData`, carrying the running
`attributeSize` (`-1` until the first resolved attribute is seen): skip
unresolved attributes; throw if a resolved attribute has no buffer, or a
buffer that was never written (`dataSize < 0`); divide each data size by the
compatibility multiplier and throw on a disagreement. -/
def validateAttributes (compat : RenderDataType → RenderDataType → Int) :
    List GLShaderAttribute → Int → Except String Int
  | [], attributeSize => .ok attributeSize
  | a :: rest, attributeSize =>
    if a.location = -1 then validateAttributes compat rest attributeSize
    else
      match a.buff with
      | none => .error ("Attribute " ++ a.name ++ " has no buffer attached")
      | some buff =>
        if buff.dataSize < 0 then
          .error ("Attribute " ++ a.name ++ " has not been set")
        else
          let compatCount : Int := compat a.type buff.dataType
          if attributeSize = -1 then
            validateAttributes compat rest (Int.tdiv buff.dataSize compatCount)
          else if Int.tdiv buff.dataSize compatCount ≠ attributeSize then
            .error "Attributes have inconsistent size."
          else validateAttributes compat rest attributeSize

/-- Texture loop of `GLShaderProgram::validateData`: skip unresolved
textures, throw on the first resolved-but-unset one. -/
def validateTextures : List GLShaderTexture → Except String Unit
  | [] => .ok ()
  | t :: rest =>
    if t.location = -1 then validateTextures rest
    else if !t.isSet then .error ("Texture " ++ t.name ++ " has not been set")
    else validateTextures rest

/-- `GLShaderProgram::validateData`: uniform/attribute/texture checks in
source order, then the index-buffer presence check, then the draw length
(`static_cast<unsigned int>` modelled by `% 2^32`), then the instanced-mode
instance count check. -/
def validateData (compat : RenderDataType → RenderDataType → Int)
    (p : GLShaderProgram) : Except String GLShaderProgram := do
  validateUniforms p.uniforms
  let attributeSize ← validateAttributes compat p.attributes (-1)
  validateTextures p.textures
  match p.indexBuffer with
  | none =>
    if p.useIndex then .error "Index buffer has not been filled"
    else
      let p1 := { p with drawDataLength := (attributeSize % (2 ^ 32 : Int)).toNat }
      if (p.drawMode = DrawMode.TrianglesInstanced ||
          p.drawMode = DrawMode.TriangleStripInstanced) &&
          p.instanceCount = INVALID_IND_32 then
        .error "Must set instance count to use instanced drawing"
      else .ok p1
  | some ib =>
    let dl : Nat :=
      if p.useIndex then
        (((p.indexSizeMult : Int) * ib.dataSize) % (2 ^ 32 : Int)).toNat
      else (attributeSize % (2 ^ 32 : Int)).toNat
    let p1 := { p with drawDataLength := dl }
    if (p.drawMode = DrawMode.TrianglesInstanced ||
        p.drawMode = DrawMode.TriangleStripInstanced) &&
        p.instanceCount = INVALID_IND_32 then
      .error "Must set instance count to use instanced drawing"
    else .ok p1

end GLShaderProgram

-- =============================================================
-- ================  Compiled program merge  ===================
-- =============================================================

/-- `ShaderSpecUniform` declaration (name + declared type). -/
structure ShaderSpecUniform where
  name : String
  type : RenderDataType
  deriving DecidableEq

/-- `ShaderSpecAttribute` declaration (name + declared type + array count). -/
structure ShaderSpecAttribute where
  name : String
  type : RenderDataType
  arrayCount : Nat
  deriving DecidableEq

/-- `ShaderSpecTexture` declaration (name + dimension). -/
structure ShaderSpecTexture where
  name : String
  dim : Int
  deriving DecidableEq

/-- `ShaderStageSpecification`: one shader stage with its source text and
declared interface. -/
structure ShaderStageSpecification where
  stage : ShaderStageType
  uniforms : List ShaderSpecUniform
  attributes : List ShaderSpecAttribute
  textures : List ShaderSpecTexture
  src : String
  deriving DecidableEq

namespace GLCompiledProgram

/-- `GLCompiledProgram::addUniqueUniform`: scan the merged list for the name;
an occurrence with a different declared type is a hard error; an occurrence
with the same type leaves the list unchanged; otherwise append a fresh entry
(unset, placeholder location 777). -/
def addUniqueUniform (newUniform : ShaderSpecUniform) :
    List GLShaderUniform → Except String (List GLShaderUniform)
  | [] => .ok [{ name := newUniform.name, type := newUniform.type,
                 isSet := false, location := 777 }]
  | u :: rest =>
    if u.name = newUniform.name then
      if u.type ≠ newUniform.type then
        .error ("uniform " ++ u.name ++ " appears twice in program with different types")
      else .ok (u :: rest)
    else (addUniqueUniform newUniform rest).map (u :: ·)

/-- `GLCompiledProgram::addUniqueAttribute`: as for uniforms; a fresh entry
carries the declared array count, location `-1` and no buffer. -/
def addUniqueAttribute (newAttribute : ShaderSpecAttribute) :
    List GLShaderAttribute → Except String (List GLShaderAttribute)
  | [] => .ok [{ name := newAttribute.name, type := newAttribute.type,
                 arrayCount := newAttribute.arrayCount, location := -1, buff := none }]
  | a :: rest =>
    if a.name = newAttribute.name then
      if a.type ≠ newAttribute.type then
        .error ("attribute " ++ a.name ++ " appears twice in program with different types")
      else .ok (a :: rest)
    else (addUniqueAttribute newAttribute rest).map (a :: ·)

/-- `GLCompiledProgram::addUniqueTexture`: as for uniforms, keyed on the
texture dimension instead of a type. -/
def addUniqueTexture (newTexture : ShaderSpecTexture) :
    List GLShaderTexture → Except String (List GLShaderTexture)
  | [] => .ok [{ name := newTexture.name, dim := newTexture.dim, index := 777,
                 isSet := false, textureBuffer := none, location := 777 }]
  | t :: rest =>
    if t.name = newTexture.name then
      if t.dim ≠ newTexture.dim then
        .error ("texture " ++ t.name ++ " appears twice in program with different dimensions")
      else .ok (t :: rest)
    else (addUniqueTexture newTexture rest).map (t :: ·)

/-- The merged interface accumulated by the `GLCompiledProgram` constructor. -/
structure Iface where
  uniforms : List GLShaderUniform
  attributes : List GLShaderAttribute
  textures : List GLShaderTexture
  deriving DecidableEq

/-- Merge one stage's declarations into the accumulated interface (the inner
loops of the `GLCompiledProgram` constructor). -/
def mergeStage (acc : Iface) (s : ShaderStageSpecification) : Except String Iface := do
  let us ← s.uniforms.foldlM (fun l u => addUniqueUniform u l) acc.uniforms
  let as ← s.attributes.foldlM (fun l a => addUniqueAttribute a l) acc.attributes
  let ts ← s.textures.foldlM (fun l t => addUniqueTexture t l) acc.textures
  pure { uniforms := us, attributes := as, textures := ts }

/-- Interface-merging phase of the `GLCompiledProgram` constructor: fold the
stages, then fail if the merged attribute list is empty ("Uh oh... GLProgram
has no attributes").  Stage compilation and linking then happen on the
native device and are outside the model. -/
def construct (stages : List ShaderStageSpecification) : Except String Iface := do
  let iface ← stages.foldlM mergeStage ⟨[], [], []⟩
  if iface.attributes.length = 0 then
    .error "Uh oh... GLProgram has no attributes"
  else pure iface

end GLCompiledProgram

-- =============================================================
-- ============  Backend engine: registry & cache  =============
-- =============================================================

/-- `ShaderReplacementRule`: a named substitution unit.  Its ordered text
replacements are consumed by `applyShaderReplacements` and only affect shader
source text (compiled natively, outside the model); the extra interface
declarations it carries are merged into the stages. -/
structure ShaderReplacementRule where
  ruleName : String
  uniforms : List ShaderSpecUniform := []
  attributes : List ShaderSpecAttribute := []
  textures : List ShaderSpecTexture := []
  deriving DecidableEq

/-- Modelled from the spec: `applyShaderReplacements` (defined in
`shader_builder.cpp`, which is not among this repository's sources) rewrites
each stage's source text at the rules' marker points — a text transformation
whose result is only consumed by the native shader compiler, so the model
leaves `src` unchanged — and merges each rule's declared extra
uniforms/attributes/textures into each stage's declared interface. -/
def applyShaderReplacements (stages : List ShaderStageSpecification)
    (rules : List ShaderReplacementRule) : List ShaderStageSpecification :=
  stages.map (fun s =>
    { s with
        uniforms := s.uniforms ++ (rules.map (·.uniforms)).flatten,
        attributes := s.attributes ++ (rules.map (·.attributes)).flatten,
        textures := s.textures ++ (rules.map (·.textures)).flatten })

/-- First-match association-list lookup, modelling `std::map::find` (keys in
the registries and the cache are unique). -/
def lookup (l : List (String × α)) (k : String) : Option α :=
  (l.find? (fun p => p.1 = k)).map (·.2)

/-- Model of the `GLEngine` state touched by the program cache: the two
registries, the compiled-program cache (key → program identity), a counter
allocating fresh program identities (modelling `shared_ptr` identity of
newly constructed `GLCompiledProgram`s), and the three default rule lists
(members initialised at engine startup, outside these sources). -/
structure GLEngine where
  registeredShaderPrograms : List (String × (List ShaderStageSpecification × DrawMode))
  registeredShaderRules : List (String × ShaderReplacementRule)
  compiledProgamCache : List (String × Nat) := []
  nextProgramId : Nat := 0
  defaultRules_sceneObject : List String := []
  defaultRules_pick : List String := []
  defaultRules_process : List String := []
  deriving DecidableEq

namespace GLEngine

/-- The rule names contributed by a defaults preset, shared by
`programKeyFromRules` and `getCompiledProgram`: the scene-object list, the
scene-object list without `SLICE_PLANE_`-prefixed rules, the pick list, the
process list, or nothing. -/
def defaultsRuleList (e : GLEngine) : ShaderReplacementDefaults → List String
  | .SceneObject => e.defaultRules_sceneObject
  | .SceneObjectNoSlice =>
      e.defaultRules_sceneObject.filter (fun s => !s.startsWith "SLICE_PLANE_")
  | .Pick => e.defaultRules_pick
  | .Process => e.defaultRules_process
  | .None => []

/-- `GLEngine::programKeyFromRules`: the cache key is built by concatenating
the program name, the rule names exactly as supplied (each followed by
`"# "`), and the expanded defaults rule names. -/
def programKeyFromRules (e : GLEngine) (programName : String)
    (rules : List String) (defaults : ShaderReplacementDefaults) : String :=
  "$PROGRAMNAME: " ++ programName ++ "#" ++
  "  $RULES: " ++ String.join (rules.map (· ++ "# ")) ++
  "  $DEFAULTS: " ++ String.join ((e.defaultsRuleList defaults).map (· ++ "# "))

/-- Rule-resolution loop of `GLEngine::getCompiledProgram`, carrying the
prefix of `fullCustomRules` already traversed: the empty rule name is a
no-op; a name that already occurred earlier in the list is silently skipped;
a name absent from the rule registry is a hard error; otherwise the
registered rule is appended to the substitution list. -/
def processRulesAux (registered : List (String × ShaderReplacementRule))
    (seen : List String) :
    List String → Except String (List ShaderReplacementRule)
  | [] => .ok []
  | ruleName :: rest =>
    if ruleName = "" then processRulesAux registered (seen ++ [ruleName]) rest
    else if ruleName ∈ seen then processRulesAux registered (seen ++ [ruleName]) rest
    else
      match lookup registered ruleName with
      | none =>
        .error ("No shader replacement rule with name [" ++ ruleName ++ "] registered.")
      | some thisRule =>
        (processRulesAux registered (seen ++ [ruleName]) rest).map (thisRule :: ·)

/-- Rule resolution over a full rule-name list (the loop at
`gl_engine.cpp:2398-2418`). -/
def processRules (registered : List (String × ShaderReplacementRule))
    (fullCustomRules : List String) : Except String (List ShaderReplacementRule) :=
  processRulesAux registered [] fullCustomRules

/-- `GLEngine::getCompiledProgram`: build the cache key; on a hit return the
shared compiled program unchanged; on a miss resolve the program name, append
the defaults rules to the caller rules, resolve the rule list, build the
program (text substitution by `applyShaderReplacements` and native
compilation are outside the model; a successful build allocates a fresh
program identity) and cache it under the key.  Returns the updated engine
and the identity of the returned `shared_ptr<GLCompiledProgram>`. -/
def getCompiledProgram (e : GLEngine) (programName : String)
    (customRules : List String) (defaults : ShaderReplacementDefaults) :
    Except String (GLEngine × Nat) :=
  let progKey := e.programKeyFromRules programName customRules defaults
  match lookup e.compiledProgamCache progKey with
  | some pid => .ok (e, pid)
  | none =>
    match lookup e.registeredShaderPrograms programName with
    | none => .error ("No shader program with name [" ++ programName ++ "] registered.")
    | some (stages, _dm) =>
      let fullCustomRules := customRules ++ e.defaultsRuleList defaults
      (processRules e.registeredShaderRules fullCustomRules).bind (fun rules =>
        let updatedStages := applyShaderReplacements stages rules
        (GLCompiledProgram.construct updatedStages).map (fun _iface =>
          ({ e with
              compiledProgamCache := e.compiledProgamCache ++ [(progKey, e.nextProgramId)],
              nextProgramId := e.nextProgramId + 1 },
           e.nextProgramId)))

/-- Well-formedness of the engine cache: distinct keys, distinct program
identities, and every cached identity below the allocation counter. -/
def CacheWF (e : GLEngine) : Prop :=
  e.compiledProgamCache.Pairwise (fun p q => p.1 ≠ q.1 ∧ p.2 ≠ q.2) ∧
  ∀ p ∈ e.compiledProgamCache, p.2 < e.nextProgramId

end GLEngine


-- =============================================================
-- ==========  Spec-side definitions and sample data  ==========
-- =============================================================

namespace GLEngine

/-- Spec-side description of the processed rule names: the non-empty names,
in caller order, keeping only the first occurrence of each (`seen` is the
prefix already traversed). -/
def firstOccurrencesAux (seen : List String) : List String → List String
  | [] => []
  | x :: rest =>
    if x = "" ∨ x ∈ seen then firstOccurrencesAux (seen ++ [x]) rest
    else x :: firstOccurrencesAux (seen ++ [x]) rest

def firstOccurrences (l : List String) : List String := firstOccurrencesAux [] l

end GLEngine

namespace GLShaderProgram

/-- Spec-side predicate: a resolved attribute carries a written buffer whose
data size divided by the compatibility multiplier equals `s`. -/
def attrGoodWith (compat : RenderDataType → RenderDataType → Int) (s : Int)
    (a : GLShaderAttribute) : Prop :=
  ∃ buff, a.buff = some buff ∧ 0 ≤ buff.dataSize ∧
    Int.tdiv buff.dataSize (compat a.type buff.dataType) = s

end GLShaderProgram

namespace GLCompiledProgram

/-- First declared type recorded for `name` in a merged attribute list. -/
def lookupAttrType (l : List GLShaderAttribute) (name : String) :
    Option RenderDataType :=
  (l.find? (fun a => decide (a.name = name))).map (·.type)

/-- Attribute declarations of a stage list, in merge order. -/
def declsA (stages : List ShaderStageSpecification) : List ShaderSpecAttribute :=
  (stages.map (·.attributes)).flatten

/-- First declared type recorded for `name` in a merged uniform list. -/
def lookupUniformType (l : List GLShaderUniform) (name : String) :
    Option RenderDataType :=
  (l.find? (fun u => decide (u.name = name))).map (·.type)

/-- Uniform declarations of a stage list, in merge order. -/
def declsU (stages : List ShaderStageSpecification) : List ShaderSpecUniform :=
  (stages.map (·.uniforms)).flatten

/-- First declared dimension recorded for `name` in a merged texture list. -/
def lookupTextureDim (l : List GLShaderTexture) (name : String) : Option Int :=
  (l.find? (fun t => decide (t.name = name))).map (·.dim)

/-- Texture declarations of a stage list, in merge order. -/
def declsT (stages : List ShaderStageSpecification) : List ShaderSpecTexture :=
  (stages.map (·.textures)).flatten

end GLCompiledProgram

/-- Concrete shader-program instance whose declared uniform, attribute and
texture were all optimized out (location `-1`). -/
def unresolvedProgram : GLShaderProgram :=
  { drawMode := .Triangles,
    uniforms := [⟨"u_color", .Vector3Float, false, -1⟩],
    attributes := [⟨"a_position", .Vector3Float, 1, -1, none⟩],
    textures := [⟨"t_image", 2, 0, false, none, -1⟩],
    useIndex := false }

/-- Concrete shader-program instance with one resolved, already-set 2D
texture slot. -/
def boundTexProgram : GLShaderProgram :=
  { drawMode := .Triangles,
    uniforms := [], attributes := [],
    textures := [⟨"t_image", 2, 0, true, some (.external ⟨5, 2⟩), 3⟩],
    useIndex := false }

/-- Concrete engine with one registered program (one vertex stage declaring
one attribute) and one registered rule, nothing cached. -/
def sampleEngine : GLEngine :=
  { registeredShaderPrograms :=
      [("P", ([{ stage := .Vertex, uniforms := [],
                 attributes := [⟨"a_pos", .Vector3Float, 1⟩], textures := [],
                 src := "" }], DrawMode.Triangles))],
    registeredShaderRules := [("A", ⟨"A", [], [], []⟩)] }

/-- Concrete valid program: one set uniform, one resolved attribute with 3
committed elements, no textures, non-indexed triangles. -/
def validProgram : GLShaderProgram :=
  { drawMode := .Triangles,
    uniforms := [⟨"u_color", .Vector3Float, true, 0⟩],
    attributes := [⟨"a_position", .Vector3Float, 1, 0,
      some { dataType := .Vector3Float, arrayCount := 1, setFlag := true,
             dataSize := 3, bufferSize := 3, store := [] }⟩],
    textures := [], useIndex := false }


-- =============================================================
-- =======================  Theorems  ==========================
-- =============================================================

end PsPlus

namespace PsPlus

namespace GLAttributeBuffer

/-- Unfolding of `setData_helper` as a Prop-conditional. -/
lemma setData_helper_eq (m : Nat) (b : GLAttributeBuffer) (data : List (List Nat)) :
    setData_helper m b data =
      if b.setFlag = false ∨ data.length > b.bufferSize then
        { b with setFlag := true,
                 bufferSize := max data.length (2 * b.bufferSize),
                 dataSize := (data.length : Int),
                 store := data.flatten.map some ++
                   (List.replicate (max data.length (2 * b.bufferSize) * m)
                     (none : Option Nat)).drop data.flatten.length }
      else
        { b with dataSize := (data.length : Int),
                 store := data.flatten.map some ++ b.store.drop data.flatten.length } := by
  unfold setData_helper
  by_cases h : b.setFlag = false ∨ data.length > b.bufferSize
  · have hb : (!b.setFlag || decide (data.length > b.bufferSize)) = true := by
      rcases h with h | h
      · simp [h]
      · simp [h]
    simp [hb, h]
  · have hb : (!b.setFlag || decide (data.length > b.bufferSize)) = false := by
      push_neg at h
      simp [h.1, Nat.not_lt.mpr h.2]
    simp [hb, h]

lemma setData_helper_setFlag (m : Nat) (b : GLAttributeBuffer) (data : List (List Nat)) :
    (setData_helper m b data).setFlag = true := by
  rw [setData_helper_eq]
  split
  · rfl
  · next h =>
    push_neg at h
    simpa using h.1

lemma setData_helper_dataSize (m : Nat) (b : GLAttributeBuffer) (data : List (List Nat)) :
    (setData_helper m b data).dataSize = (data.length : Int) := by
  rw [setData_helper_eq]; split <;> rfl

lemma setData_helper_dataType (m : Nat) (b : GLAttributeBuffer) (data : List (List Nat)) :
    (setData_helper m b data).dataType = b.dataType := by
  rw [setData_helper_eq]; split <;> rfl

lemma setData_helper_arrayCount (m : Nat) (b : GLAttributeBuffer) (data : List (List Nat)) :
    (setData_helper m b data).arrayCount = b.arrayCount := by
  rw [setData_helper_eq]; split <;> rfl

lemma setData_helper_bufferSize_grow (m : Nat) (b : GLAttributeBuffer)
    (data : List (List Nat)) (h : data.length > b.bufferSize) :
    (setData_helper m b data).bufferSize = max data.length (2 * b.bufferSize) := by
  rw [setData_helper_eq]
  split
  · rfl
  · next hc => exact absurd (Or.inr h) hc

lemma setData_helper_bufferSize_mono (m : Nat) (b : GLAttributeBuffer)
    (data : List (List Nat)) :
    b.bufferSize ≤ (setData_helper m b data).bufferSize := by
  rw [setData_helper_eq]
  split
  · simp only []
    omega
  · exact le_refl _

end GLAttributeBuffer

end PsPlus

namespace PsPlus

namespace GLAttributeBuffer

lemma setData_helper_store (m : Nat) (b : GLAttributeBuffer) (data : List (List Nat)) :
    ∃ rest, (setData_helper m b data).store = data.flatten.map some ++ rest := by
  rw [setData_helper_eq]
  split
  · exact ⟨_, rfl⟩
  · exact ⟨_, rfl⟩

/-- Reading `l.length` positions from the front of `l ++ l'` recovers `l`. -/
lemma map_getD_range_append (l l' : List α) (d : α) :
    (List.range l.length).map (fun i => (l ++ l').getD i d) = l := by
  induction l with
  | nil => simp
  | cons a t ih =>
    have : List.range (t.length + 1) = 0 :: (List.range t.length).map Nat.succ := by
      exact List.range_succ_eq_map t.length
    simp only [List.length_cons, this, List.map_cons, List.map_map, List.cons_append,
      Function.comp, List.getD_cons_zero, List.getD_cons_succ]
    exact congrArg (a :: ·) ih

end GLAttributeBuffer

end PsPlus

namespace PsPlus

namespace GLAttributeBuffer

lemma flatten_length_eq (data : List (List Nat)) (m : Nat)
    (hm : ∀ x ∈ data, x.length = m) : data.flatten.length = data.length * m := by
  induction data with
  | nil => simp
  | cons x t ih =>
    have hx : x.length = m := hm x (by simp)
    have ht : ∀ y ∈ t, y.length = m := fun y hy => hm y (by simp [hy])
    simp [List.flatten_cons, hx, ih ht, Nat.succ_mul, Nat.add_comm]

/-- Core write/read round trip on the device store: write `data` (each element
`m` cells), then read back the full logical range at a read-element width `r`
with `m = r * arrayCount`. -/
lemma setData_getDataRange_core (b : GLAttributeBuffer) (m r : Nat)
    (data : List (List Nat)) (hm : ∀ x ∈ data, x.length = m)
    (hr : m = r * b.arrayCount) :
    getDataRange_helper r (setData_helper m b data) 0 (data.length * b.arrayCount) =
      .ok (data.flatten.map some) := by
  have hflag := setData_helper_setFlag m b data
  have hds := setData_helper_dataSize m b data
  have hac := setData_helper_arrayCount m b data
  obtain ⟨rest, hstore⟩ := setData_helper_store m b data
  have hlen := flatten_length_eq data m hm
  unfold getDataRange_helper
  have hbound : ((setData_helper m b data).getDataSize *
      ((setData_helper m b data).getArrayCount : Int)).toNat =
      data.length * b.arrayCount := by
    simp [getDataSize, getArrayCount, hds, hac]
    omega
  rw [hbound]
  simp only [isSet, hflag, Bool.not_true, Bool.false_or, Nat.zero_add]
  have hnotgt : ¬ (0 + data.length * b.arrayCount > data.length * b.arrayCount) := by omega
  simp only [Nat.zero_add] at hnotgt
  rw [if_neg (by simpa using hnotgt)]
  congr 1
  have hcount : data.length * b.arrayCount * r = (data.flatten.map some).length := by
    rw [List.length_map, hlen, hr]; ring
  rw [hcount, hstore]
  have := map_getD_range_append (data.flatten.map some) rest (none : Option Nat)
  simpa [Nat.zero_mul, Nat.zero_add] using this

end GLAttributeBuffer

end PsPlus

namespace PsPlus

namespace GLAttributeBuffer

lemma decode1_map_some (l : List Nat) : decode1 (l.map some) = l.map some := by
  induction l with
  | nil => rfl
  | cons a t ih => simp [decode1, ih]

lemma decode2_cells (v : Nat × Nat) (rest : List (Option Nat)) :
    decode2 ((cells2 v).map some ++ rest) = some v :: decode2 rest := by
  obtain ⟨x, y⟩ := v
  rfl

lemma decode2_flat (data : List (Nat × Nat)) :
    decode2 ((data.map cells2).flatten.map some) = data.map some := by
  induction data with
  | nil => rfl
  | cons v t ih =>
    simp only [List.map_cons, List.flatten_cons, List.map_append]
    rw [decode2_cells, ih]

lemma decode3_cells (v : Nat × Nat × Nat) (rest : List (Option Nat)) :
    decode3 ((cells3 v).map some ++ rest) = some v :: decode3 rest := by
  obtain ⟨x, y, z⟩ := v
  rfl

lemma decode3_flat (data : List (Nat × Nat × Nat)) :
    decode3 ((data.map cells3).flatten.map some) = data.map some := by
  induction data with
  | nil => rfl
  | cons v t ih =>
    simp only [List.map_cons, List.flatten_cons, List.map_append]
    rw [decode3_cells, ih]

lemma decode4_cells (v : Nat × Nat × Nat × Nat) (rest : List (Option Nat)) :
    decode4 ((cells4 v).map some ++ rest) = some v :: decode4 rest := by
  obtain ⟨x, y, z, w⟩ := v
  rfl

lemma decode4_flat (data : List (Nat × Nat × Nat × Nat)) :
    decode4 ((data.map cells4).flatten.map some) = data.map some := by
  induction data with
  | nil => rfl
  | cons v t ih =>
    simp only [List.map_cons, List.flatten_cons, List.map_append]
    rw [decode4_cells, ih]

/-- Flattening the per-array cell images equals the cell image of the
flattened element list. -/
lemma flatten_map_flatten (l : List (List (Nat × Nat × Nat))) :
    (l.map (fun a => (a.map cells3).flatten)).flatten =
      ((l.flatten).map cells3).flatten := by
  induction l with
  | nil => rfl
  | cons x t ih => simp [List.map_append, List.flatten_append, ih]

end GLAttributeBuffer

end PsPlus

namespace PsPlus

namespace GLAttributeBuffer

lemma roundtrip_vec2 (b : GLAttributeBuffer) (data : List (Nat × Nat))
    (hty : b.dataType = .Vector2Float) (hac : b.arrayCount = 1) :
    ∃ b', setData_vec2 b data = .ok b' ∧
      getDataRange_vec2 b' 0 data.length = .ok (data.map some) := by
  refine ⟨setData_helper 2 b (data.map cells2), ?_, ?_⟩
  · simp [setData_vec2, checkType, hty]
  · have hty' : (setData_helper 2 b (data.map cells2)).getType = .Vector2Float := by
      simp [getType, setData_helper_dataType, hty]
    have core := setData_getDataRange_core b 2 2 (data.map cells2)
      (by intro x hx; rw [List.mem_map] at hx; obtain ⟨v, hv, rfl⟩ := hx; rfl)
      (by rw [hac])
    rw [hac, Nat.mul_one] at core
    simp only [List.length_map] at core
    unfold getDataRange_vec2
    rw [if_neg (by simp [hty'])]
    rw [core]
    show Except.ok (decode2 ((data.map cells2).flatten.map some)) = _
    rw [decode2_flat]

end GLAttributeBuffer

end PsPlus

namespace PsPlus

namespace GLAttributeBuffer

lemma flatten_singletons (l : List Nat) : (l.map (fun x => [x])).flatten = l := by
  induction l with
  | nil => rfl
  | cons a t ih => simp [ih]

lemma roundtrip_vec3 (b : GLAttributeBuffer) (data : List (Nat × Nat × Nat))
    (hty : b.dataType = .Vector3Float) (hac : b.arrayCount = 1) :
    ∃ b', setData_vec3 b data = .ok b' ∧
      getDataRange_vec3 b' 0 data.length = .ok (data.map some) := by
  refine ⟨setData_helper 3 b (data.map cells3), ?_, ?_⟩
  · simp [setData_vec3, checkType, hty]
  · have hty' : (setData_helper 3 b (data.map cells3)).getType = .Vector3Float := by
      simp [getType, setData_helper_dataType, hty]
    have core := setData_getDataRange_core b 3 3 (data.map cells3)
      (by intro x hx; rw [List.mem_map] at hx; obtain ⟨v, hv, rfl⟩ := hx; rfl)
      (by rw [hac])
    rw [hac, Nat.mul_one] at core
    simp only [List.length_map] at core
    unfold getDataRange_vec3
    rw [if_neg (by simp [hty'])]
    rw [core]
    show Except.ok (decode3 ((data.map cells3).flatten.map some)) = _
    rw [decode3_flat]

lemma roundtrip_vec4 (b : GLAttributeBuffer) (data : List (Nat × Nat × Nat × Nat))
    (hty : b.dataType = .Vector4Float) (hac : b.arrayCount = 1) :
    ∃ b', setData_vec4 b data = .ok b' ∧
      getDataRange_vec4 b' 0 data.length = .ok (data.map some) := by
  refine ⟨setData_helper 4 b (data.map cells4), ?_, ?_⟩
  · simp [setData_vec4, checkType, hty]
  · have hty' : (setData_helper 4 b (data.map cells4)).getType = .Vector4Float := by
      simp [getType, setData_helper_dataType, hty]
    have core := setData_getDataRange_core b 4 4 (data.map cells4)
      (by intro x hx; rw [List.mem_map] at hx; obtain ⟨v, hv, rfl⟩ := hx; rfl)
      (by rw [hac])
    rw [hac, Nat.mul_one] at core
    simp only [List.length_map] at core
    unfold getDataRange_vec4
    rw [if_neg (by simp [hty'])]
    rw [core]
    show Except.ok (decode4 ((data.map cells4).flatten.map some)) = _
    rw [decode4_flat]

lemma roundtrip_uvec2 (b : GLAttributeBuffer) (data : List (Nat × Nat))
    (hty : b.dataType = .Vector2UInt) (hac : b.arrayCount = 1) :
    ∃ b', setData_uvec2 b data = .ok b' ∧
      getDataRange_uvec2 b' 0 data.length = .ok (data.map some) := by
  refine ⟨setData_helper 2 b (data.map cells2), ?_, ?_⟩
  · simp [setData_uvec2, checkType, hty]
  · have hty' : (setData_helper 2 b (data.map cells2)).getType = .Vector2UInt := by
      simp [getType, setData_helper_dataType, hty]
    have core := setData_getDataRange_core b 2 2 (data.map cells2)
      (by intro x hx; rw [List.mem_map] at hx; obtain ⟨v, hv, rfl⟩ := hx; rfl)
      (by rw [hac])
    rw [hac, Nat.mul_one] at core
    simp only [List.length_map] at core
    unfold getDataRange_uvec2
    rw [if_neg (by simp [hty'])]
    rw [core]
    show Except.ok (decode2 ((data.map cells2).flatten.map some)) = _
    rw [decode2_flat]

lemma roundtrip_uvec3 (b : GLAttributeBuffer) (data : List (Nat × Nat × Nat))
    (hty : b.dataType = .Vector3UInt) (hac : b.arrayCount = 1) :
    ∃ b', setData_uvec3 b data = .ok b' ∧
      getDataRange_uvec3 b' 0 data.length = .ok (data.map some) := by
  refine ⟨setData_helper 3 b (data.map cells3), ?_, ?_⟩
  · simp [setData_uvec3, checkType, hty]
  · have hty' : (setData_helper 3 b (data.map cells3)).getType = .Vector3UInt := by
      simp [getType, setData_helper_dataType, hty]
    have core := setData_getDataRange_core b 3 3 (data.map cells3)
      (by intro x hx; rw [List.mem_map] at hx; obtain ⟨v, hv, rfl⟩ := hx; rfl)
      (by rw [hac])
    rw [hac, Nat.mul_one] at core
    simp only [List.length_map] at core
    unfold getDataRange_uvec3
    rw [if_neg (by simp [hty'])]
    rw [core]
    show Except.ok (decode3 ((data.map cells3).flatten.map some)) = _
    rw [decode3_flat]

lemma roundtrip_uvec4 (b : GLAttributeBuffer) (data : List (Nat × Nat × Nat × Nat))
    (hty : b.dataType = .Vector4UInt) (hac : b.arrayCount = 1) :
    ∃ b', setData_uvec4 b data = .ok b' ∧
      getDataRange_uvec4 b' 0 data.length = .ok (data.map some) := by
  refine ⟨setData_helper 4 b (data.map cells4), ?_, ?_⟩
  · simp [setData_uvec4, checkType, hty]
  · have hty' : (setData_helper 4 b (data.map cells4)).getType = .Vector4UInt := by
      simp [getType, setData_helper_dataType, hty]
    have core := setData_getDataRange_core b 4 4 (data.map cells4)
      (by intro x hx; rw [List.mem_map] at hx; obtain ⟨v, hv, rfl⟩ := hx; rfl)
      (by rw [hac])
    rw [hac, Nat.mul_one] at core
    simp only [List.length_map] at core
    unfold getDataRange_uvec4
    rw [if_neg (by simp [hty'])]
    rw [core]
    show Except.ok (decode4 ((data.map cells4).flatten.map some)) = _
    rw [decode4_flat]

lemma roundtrip_float (b : GLAttributeBuffer) (data : List Nat)
    (hty : b.dataType = .Float) (hac : b.arrayCount = 1) :
    ∃ b', setData_float b data = .ok b' ∧
      getDataRange_float b' 0 data.length = .ok (data.map some) := by
  refine ⟨setData_helper 1 b (data.map (fun x => [x])), ?_, ?_⟩
  · simp [setData_float, checkType, hty]
  · have hty' : (setData_helper 1 b (data.map (fun x => [x]))).getType = .Float := by
      simp [getType, setData_helper_dataType, hty]
    have core := setData_getDataRange_core b 1 1 (data.map (fun x => [x]))
      (by intro x hx; rw [List.mem_map] at hx; obtain ⟨v, hv, rfl⟩ := hx; rfl)
      (by rw [hac])
    rw [hac, Nat.mul_one] at core
    simp only [List.length_map] at core
    unfold getDataRange_float
    rw [if_neg (by simp [hty'])]
    rw [core, flatten_singletons]

lemma roundtrip_int (b : GLAttributeBuffer) (data : List Nat)
    (hty : b.dataType = .Int) (hac : b.arrayCount = 1) :
    ∃ b', setData_int b data = .ok b' ∧
      getDataRange_int b' 0 data.length = .ok (data.map some) := by
  refine ⟨setData_helper 1 b (data.map (fun x => [x])), ?_, ?_⟩
  · simp [setData_int, checkType, hty]
  · have hty' : (setData_helper 1 b (data.map (fun x => [x]))).getType = .Int := by
      simp [getType, setData_helper_dataType, hty]
    have core := setData_getDataRange_core b 1 1 (data.map (fun x => [x]))
      (by intro x hx; rw [List.mem_map] at hx; obtain ⟨v, hv, rfl⟩ := hx; rfl)
      (by rw [hac])
    rw [hac, Nat.mul_one] at core
    simp only [List.length_map] at core
    unfold getDataRange_int
    rw [if_neg (by simp [hty'])]
    rw [core, flatten_singletons]

lemma roundtrip_uint (b : GLAttributeBuffer) (data : List Nat)
    (hty : b.dataType = .UInt) (hac : b.arrayCount = 1) :
    ∃ b', setData_uint b data = .ok b' ∧
      getDataRange_uint32 b' 0 data.length = .ok (data.map some) := by
  refine ⟨setData_helper 1 b (data.map (fun x => [x])), ?_, ?_⟩
  · simp [setData_uint, checkType, hty]
  · have hty' : (setData_helper 1 b (data.map (fun x => [x]))).getType = .UInt := by
      simp [getType, setData_helper_dataType, hty]
    have core := setData_getDataRange_core b 1 1 (data.map (fun x => [x]))
      (by intro x hx; rw [List.mem_map] at hx; obtain ⟨v, hv, rfl⟩ := hx; rfl)
      (by rw [hac])
    rw [hac, Nat.mul_one] at core
    simp only [List.length_map] at core
    unfold getDataRange_uint32
    rw [if_neg (by simp [hty'])]
    rw [core, flatten_singletons]

lemma roundtrip_double (d2f f2d : Nat → Nat) (b : GLAttributeBuffer) (data : List Nat)
    (hty : b.dataType = .Float) (hac : b.arrayCount = 1) :
    ∃ b', setData_double d2f b data = .ok b' ∧
      getDataRange_double f2d b' 0 data.length =
        .ok (data.map (fun x => some (f2d (d2f x)))) := by
  obtain ⟨b', hset, hget⟩ := roundtrip_float b (data.map d2f) hty hac
  rw [List.length_map] at hget
  refine ⟨b', ?_, ?_⟩
  · rw [← hset]
    simp [setData_double, setData_float, checkType, hty]
  · unfold getDataRange_double
    rw [hget]
    show Except.ok (((data.map d2f).map some).map (Option.map f2d)) = _
    simp [List.map_map, Function.comp]

lemma roundtrip_vec3arr (k : Nat) (b : GLAttributeBuffer)
    (data : List (List (Nat × Nat × Nat)))
    (hty : b.dataType = .Vector3Float) (hac : b.arrayCount = k)
    (hk : ∀ x ∈ data, x.length = k) :
    ∃ b', setData_vec3arr k b data = .ok b' ∧
      getDataRange_vec3 b' 0 (data.length * k) = .ok (data.flatten.map some) := by
  refine ⟨setData_helper (3 * k) b (data.map (fun a => (a.map cells3).flatten)), ?_, ?_⟩
  · simp [setData_vec3arr, checkType, checkArray, hty, hac]
    rfl
  · have hty' : (setData_helper (3 * k) b
        (data.map (fun a => (a.map cells3).flatten))).getType = .Vector3Float := by
      simp [getType, setData_helper_dataType, hty]
    have core := setData_getDataRange_core b (3 * k) 3
      (data.map (fun a => (a.map cells3).flatten))
      (by
        intro x hx; rw [List.mem_map] at hx; obtain ⟨v, hv, rfl⟩ := hx
        have : ∀ y ∈ v.map cells3, y.length = 3 := by
          intro y hy; rw [List.mem_map] at hy; obtain ⟨w, hw, rfl⟩ := hy; rfl
        rw [flatten_length_eq (v.map cells3) 3 this, List.length_map, hk v hv]
        ring)
      (by rw [hac])
    rw [hac] at core
    simp only [List.length_map] at core
    unfold getDataRange_vec3
    rw [if_neg (by simp [hty'])]
    rw [core]
    show Except.ok (decode3 ((data.map (fun a => (a.map cells3).flatten)).flatten.map some)) = _
    rw [flatten_map_flatten, decode3_flat]

end GLAttributeBuffer

end PsPlus

namespace PsPlus

open GLAttributeBuffer

lemma setData_helper_store_length_grow (m : Nat) (b : GLAttributeBuffer)
    (data : List (List Nat)) (hm : ∀ x ∈ data, x.length = m)
    (h : data.length > b.bufferSize) :
    (setData_helper m b data).store.length = max data.length (2 * b.bufferSize) * m := by
  rw [setData_helper_eq, if_pos (Or.inr h)]
  have hlen := flatten_length_eq data m hm
  simp only [List.length_append, List.length_map, List.length_drop, List.length_replicate]
  have hle : data.flatten.length ≤ max data.length (2 * b.bufferSize) * m := by
    rw [hlen]
    exact Nat.mul_le_mul_right m (le_max_left _ _)
  omega

/-- C4: on `setData` with incoming length above capacity, the new capacity is
`max(incoming, 2*old)` with freshly reallocated storage; logical length
becomes the incoming length; capacity never decreases, also over arbitrary
call sequences. -/
theorem C4_buffer_growth (m : Nat) (b : GLAttributeBuffer) (data : List (List Nat))
    (hm : ∀ x ∈ data, x.length = m)
    (writes : List (Nat × List (List Nat))) :
    (data.length > b.bufferSize →
      (setData_helper m b data).bufferSize = max data.length (2 * b.bufferSize) ∧
      (setData_helper m b data).store.length = max data.length (2 * b.bufferSize) * m) ∧
    (setData_helper m b data).dataSize = (data.length : Int) ∧
    b.bufferSize ≤ (setData_helper m b data).bufferSize ∧
    b.bufferSize ≤ (writes.foldl (fun acc p => setData_helper p.1 acc p.2) b).bufferSize := by
  refine ⟨fun h => ⟨setData_helper_bufferSize_grow m b data h,
      setData_helper_store_length_grow m b data hm h⟩,
    setData_helper_dataSize m b data,
    setData_helper_bufferSize_mono m b data, ?_⟩
  induction writes generalizing b with
  | nil => exact le_refl _
  | cons w t ih =>
    exact le_trans (setData_helper_bufferSize_mono w.1 b w.2) (ih _)

theorem C4_buffer_growth_witness :
    ((3 : Nat) > (GLAttributeBuffer.create .Float 1).bufferSize) ∧
    ((setData_helper 1 (GLAttributeBuffer.create .Float 1) [[7], [8], [9]]).bufferSize =
      max 3 (2 * (GLAttributeBuffer.create .Float 1).bufferSize)) := by
  refine ⟨by decide, ?_⟩
  exact ((C4_buffer_growth 1 (GLAttributeBuffer.create .Float 1) [[7], [8], [9]]
    (by decide) []).1 (by decide)).1

end PsPlus

namespace PsPlus

open GLAttributeBuffer

/-- C5: for every supported (element type, arity) pair, `setData` followed by
`getRange` over the full logical range returns the original values; double
inputs round-trip through the narrowing/widening pair. -/
theorem C5_roundtrip :
    (∀ b data, b.dataType = .Vector2Float → b.arrayCount = 1 → data ≠ [] →
      ∃ b', setData_vec2 b data = .ok b' ∧
        getDataRange_vec2 b' 0 data.length = .ok (data.map some)) ∧
    (∀ b data, b.dataType = .Vector3Float → b.arrayCount = 1 → data ≠ [] →
      ∃ b', setData_vec3 b data = .ok b' ∧
        getDataRange_vec3 b' 0 data.length = .ok (data.map some)) ∧
    (∀ k b data, b.dataType = .Vector3Float → b.arrayCount = k → data ≠ [] →
      (∀ x ∈ data, x.length = k) →
      ∃ b', setData_vec3arr k b data = .ok b' ∧
        getDataRange_vec3 b' 0 (data.length * k) = .ok (data.flatten.map some)) ∧
    (∀ b data, b.dataType = .Vector4Float → b.arrayCount = 1 → data ≠ [] →
      ∃ b', setData_vec4 b data = .ok b' ∧
        getDataRange_vec4 b' 0 data.length = .ok (data.map some)) ∧
    (∀ b data, b.dataType = .Float → b.arrayCount = 1 → data ≠ [] →
      ∃ b', setData_float b data = .ok b' ∧
        getDataRange_float b' 0 data.length = .ok (data.map some)) ∧
    (∀ d2f f2d b data, b.dataType = .Float → b.arrayCount = 1 → data ≠ [] →
      ∃ b', setData_double d2f b data = .ok b' ∧
        getDataRange_double f2d b' 0 data.length =
          .ok (data.map (fun x => some (f2d (d2f x))))) ∧
    (∀ b data, b.dataType = .Int → b.arrayCount = 1 → data ≠ [] →
      ∃ b', setData_int b data = .ok b' ∧
        getDataRange_int b' 0 data.length = .ok (data.map some)) ∧
    (∀ b data, b.dataType = .UInt → b.arrayCount = 1 → data ≠ [] →
      ∃ b', setData_uint b data = .ok b' ∧
        getDataRange_uint32 b' 0 data.length = .ok (data.map some)) ∧
    (∀ b data, b.dataType = .Vector2UInt → b.arrayCount = 1 → data ≠ [] →
      ∃ b', setData_uvec2 b data = .ok b' ∧
        getDataRange_uvec2 b' 0 data.length = .ok (data.map some)) ∧
    (∀ b data, b.dataType = .Vector3UInt → b.arrayCount = 1 → data ≠ [] →
      ∃ b', setData_uvec3 b data = .ok b' ∧
        getDataRange_uvec3 b' 0 data.length = .ok (data.map some)) ∧
    (∀ b data, b.dataType = .Vector4UInt → b.arrayCount = 1 → data ≠ [] →
      ∃ b', setData_uvec4 b data = .ok b' ∧
        getDataRange_uvec4 b' 0 data.length = .ok (data.map some)) :=
  ⟨fun b data hty hac _ => roundtrip_vec2 b data hty hac,
   fun b data hty hac _ => roundtrip_vec3 b data hty hac,
   fun k b data hty hac _ hk => roundtrip_vec3arr k b data hty hac hk,
   fun b data hty hac _ => roundtrip_vec4 b data hty hac,
   fun b data hty hac _ => roundtrip_float b data hty hac,
   fun d2f f2d b data hty hac _ => roundtrip_double d2f f2d b data hty hac,
   fun b data hty hac _ => roundtrip_int b data hty hac,
   fun b data hty hac _ => roundtrip_uint b data hty hac,
   fun b data hty hac _ => roundtrip_uvec2 b data hty hac,
   fun b data hty hac _ => roundtrip_uvec3 b data hty hac,
   fun b data hty hac _ => roundtrip_uvec4 b data hty hac⟩

theorem C5_roundtrip_witness :
    ∃ b', setData_vec3 (GLAttributeBuffer.create .Vector3Float 1) [(1, 2, 3), (4, 5, 6)] = .ok b' ∧
      getDataRange_vec3 b' 0 2 = .ok [some (1, 2, 3), some (4, 5, 6)] :=
  C5_roundtrip.2.1 (GLAttributeBuffer.create .Vector3Float 1) [(1, 2, 3), (4, 5, 6)]
    rfl rfl (by decide)

/-- C6: point and range reads fail on a never-written buffer and whenever the
request exceeds the logical length (`dataSize * arrayCount` read units). -/
theorem C6_read_bounds :
    (∀ m b ind, b.isSet = false → getData_helper m b ind = .error "bad getData") ∧
    (∀ m b start count, b.isSet = false →
      getDataRange_helper m b start count = .error "bad getData") ∧
    (∀ m b ind, ind ≥ (b.getDataSize * (b.getArrayCount : Int)).toNat →
      getData_helper m b ind = .error "bad getData") ∧
    (∀ m b start count,
      start + count > (b.getDataSize * (b.getArrayCount : Int)).toNat →
      getDataRange_helper m b start count = .error "bad getData") ∧
    (∀ m t k ind, getData_helper m (GLAttributeBuffer.create t k) ind = .error "bad getData") ∧
    (∀ m t k start count,
      getDataRange_helper m (GLAttributeBuffer.create t k) start count = .error "bad getData") ∧
    (∀ b start count, b.getType = RenderDataType.Vector3Float →
      start + count > (b.getDataSize * (b.getArrayCount : Int)).toNat →
      getDataRange_vec3 b start count = .error "bad getData") := by
  refine ⟨?_, ?_, ?_, ?_, ?_, ?_, ?_⟩
  · intro m b ind h
    unfold getData_helper
    rw [if_pos]
    simp [h]
  · intro m b start count h
    unfold getDataRange_helper
    rw [if_pos]
    simp [h]
  · intro m b ind h
    unfold getData_helper
    rw [if_pos]
    simp [h]
  · intro m b start count h
    unfold getDataRange_helper
    rw [if_pos]
    simp [h]
  · intro m t k ind
    unfold getData_helper
    rw [if_pos]
    simp [GLAttributeBuffer.create, isSet]
  · intro m t k start count
    unfold getDataRange_helper
    rw [if_pos]
    simp [GLAttributeBuffer.create, isSet]
  · intro b start count hty h
    unfold getDataRange_vec3
    rw [if_neg (by simp [hty])]
    unfold getDataRange_helper
    rw [if_pos (by simp [h])]
    rfl

theorem C6_read_bounds_witness :
    getData_helper 1 (GLAttributeBuffer.create .Float 1) 0 = .error "bad getData" :=
  C6_read_bounds.2.2.2.2.1 1 .Float 1 0

end PsPlus

namespace PsPlus

open GLAttributeBuffer

lemma getData_uvec2_typeGate (b : GLAttributeBuffer) (ind : Nat) :
    getData_uvec2 b ind = .error "bad getData type" ↔ b.getType ≠ .Vector2Float := by
  unfold getData_uvec2
  by_cases h : b.getType = .Vector2Float
  · rw [if_neg (by simp [h])]
    simp only [h, ne_eq, not_true_eq_false, iff_false]
    cases hh : getData_helper 2 b ind with
    | ok v => simp [Except.map]
    | error e =>
      have he : e = "bad getData" := by
        unfold getData_helper at hh
        split at hh
        · exact (Except.error.inj hh).symm
        · cases hh
      rw [he]
      intro hcontra
      exact absurd (Except.error.inj hcontra) (by decide)
  · rw [if_pos (by simp [h])]
    simp [h]

end PsPlus

namespace PsPlus

open GLAttributeBuffer

lemma getData_uvec3_typeGate (b : GLAttributeBuffer) (ind : Nat) :
    getData_uvec3 b ind = .error "bad getData type" ↔ b.getType ≠ .Vector3Float := by
  unfold getData_uvec3
  by_cases h : b.getType = .Vector3Float
  · rw [if_neg (by simp [h])]
    simp only [h, ne_eq, not_true_eq_false, iff_false]
    cases hh : getData_helper 3 b ind with
    | ok v => simp [Except.map]
    | error e =>
      have he : e = "bad getData" := by
        unfold getData_helper at hh
        split at hh
        · exact (Except.error.inj hh).symm
        · cases hh
      rw [he]
      intro hcontra
      exact absurd (Except.error.inj hcontra) (by decide)
  · rw [if_pos (by simp [h])]
    simp [h]

lemma getData_uvec4_typeGate (b : GLAttributeBuffer) (ind : Nat) :
    getData_uvec4 b ind = .error "bad getData type" ↔ b.getType ≠ .Vector4Float := by
  unfold getData_uvec4
  by_cases h : b.getType = .Vector4Float
  · rw [if_neg (by simp [h])]
    simp only [h, ne_eq, not_true_eq_false, iff_false]
    cases hh : getData_helper 4 b ind with
    | ok v => simp [Except.map]
    | error e =>
      have he : e = "bad getData" := by
        unfold getData_helper at hh
        split at hh
        · exact (Except.error.inj hh).symm
        · cases hh
      rw [he]
      intro hcontra
      exact absurd (Except.error.inj hcontra) (by decide)
  · rw [if_pos (by simp [h])]
    simp [h]

/-- C10: the single-element unsigned-vector reads are type-gated on the FLOAT
vector types, so on a buffer of the corresponding unsigned type they always
fail with a type error, while the range reads are gated on the unsigned types
and pass straight through to the bounds-checked helper. -/
theorem C10_uvec_point_reads :
    (∀ b ind, getData_uvec2 b ind = .error "bad getData type" ↔
      b.getType ≠ .Vector2Float) ∧
    (∀ b ind, getData_uvec3 b ind = .error "bad getData type" ↔
      b.getType ≠ .Vector3Float) ∧
    (∀ b ind, getData_uvec4 b ind = .error "bad getData type" ↔
      b.getType ≠ .Vector4Float) ∧
    (∀ b ind, b.getType = .Vector2UInt →
      getData_uvec2 b ind = .error "bad getData type") ∧
    (∀ b ind, b.getType = .Vector3UInt →
      getData_uvec3 b ind = .error "bad getData type") ∧
    (∀ b ind, b.getType = .Vector4UInt →
      getData_uvec4 b ind = .error "bad getData type") ∧
    (∀ b start count, b.getType = .Vector2UInt →
      getDataRange_uvec2 b start count = (getDataRange_helper 2 b start count).map decode2) ∧
    (∀ b start count, b.getType = .Vector3UInt →
      getDataRange_uvec3 b start count = (getDataRange_helper 3 b start count).map decode3) ∧
    (∀ b start count, b.getType = .Vector4UInt →
      getDataRange_uvec4 b start count = (getDataRange_helper 4 b start count).map decode4) := by
  refine ⟨getData_uvec2_typeGate, getData_uvec3_typeGate, getData_uvec4_typeGate,
    ?_, ?_, ?_, ?_, ?_, ?_⟩
  · intro b ind h
    exact (getData_uvec2_typeGate b ind).mpr (by simp [h])
  · intro b ind h
    exact (getData_uvec3_typeGate b ind).mpr (by simp [h])
  · intro b ind h
    exact (getData_uvec4_typeGate b ind).mpr (by simp [h])
  · intro b start count h
    unfold getDataRange_uvec2
    rw [if_neg (by simp [h])]
  · intro b start count h
    unfold getDataRange_uvec3
    rw [if_neg (by simp [h])]
  · intro b start count h
    unfold getDataRange_uvec4
    rw [if_neg (by simp [h])]

theorem C10_uvec_point_reads_witness :
    ((GLAttributeBuffer.create .Vector2UInt 1).getType = RenderDataType.Vector2UInt) ∧
    getData_uvec2 (GLAttributeBuffer.create .Vector2UInt 1) 0 = .error "bad getData type" :=
  ⟨rfl, C10_uvec_point_reads.2.2.2.1 (GLAttributeBuffer.create .Vector2UInt 1) 0 rfl⟩

end PsPlus

namespace PsPlus

namespace GLShaderProgram

lemma setUniformList_unresolved (t : RenderDataType) (name : String)
    (l : List GLShaderUniform) (u : GLShaderUniform)
    (hfind : l.find? (fun v => decide (v.name = name)) = some u)
    (hloc : u.location = -1) :
    setUniformList t name l = .ok l := by
  induction l with
  | nil => cases hfind
  | cons v rest ih =>
    by_cases h : v.name = name
    · rw [List.find?_cons_of_pos _ (by simp [h])] at hfind
      have hv : v = u := Option.some.inj hfind
      unfold setUniformList
      rw [if_pos h, if_pos (by rw [hv, hloc])]
    · rw [List.find?_cons_of_neg _ (by simp [h])] at hfind
      unfold setUniformList
      rw [if_neg h, ih hfind]
      rfl

lemma setAttributeDataList_unresolved
    (write : GLAttributeBuffer → Except String GLAttributeBuffer)
    (name : String) (l : List GLShaderAttribute)
    (h : ∀ a ∈ l, a.name = name → a.location = -1) :
    setAttributeDataList write name l =
      .error ("Tried to set nonexistent attribute with name " ++ name) := by
  induction l with
  | nil => rfl
  | cons a rest ih =>
    have hcond : ¬ (a.name = name ∧ a.location ≠ -1) := by
      rintro ⟨h1, h2⟩
      exact h2 (h a (by simp) h1)
    unfold setAttributeDataList
    rw [if_neg (by simpa using hcond), ih (fun x hx => h x (by simp [hx]))]
    rfl

lemma setAttributeBufferList_unresolved
    (compat : RenderDataType → RenderDataType → Int)
    (externalBuffer : GLAttributeBuffer) (name : String)
    (l : List GLShaderAttribute) (a : GLShaderAttribute)
    (hfind : l.find? (fun v => decide (v.name = name)) = some a)
    (hloc : a.location = -1) :
    setAttributeBufferList compat externalBuffer name l = .ok l := by
  induction l with
  | nil => cases hfind
  | cons v rest ih =>
    by_cases h : v.name = name
    · rw [List.find?_cons_of_pos _ (by simp [h])] at hfind
      have hv : v = a := Option.some.inj hfind
      unfold setAttributeBufferList
      rw [if_pos h, if_pos (by rw [hv, hloc])]
    · rw [List.find?_cons_of_neg _ (by simp [h])] at hfind
      unfold setAttributeBufferList
      rw [if_neg h, ih hfind]
      rfl

lemma setTexture2DList_unresolved (name : String) (texData : List Nat)
    (width height : Nat) (withAlpha useMipMap repeatTex : Bool)
    (l : List GLShaderTexture)
    (h : ∀ t ∈ l, t.name = name → t.location = -1) :
    setTexture2DList name texData width height withAlpha useMipMap repeatTex l =
      .error ("No texture with name " ++ name) := by
  induction l with
  | nil => rfl
  | cons t rest ih =>
    have hcond : t.name ≠ name ∨ t.location = -1 := by
      by_cases h1 : t.name = name
      · exact Or.inr (h t (by simp) h1)
      · exact Or.inl h1
    unfold setTexture2DList
    rw [if_pos (by rcases hcond with h1 | h1 <;> simp [h1]),
      ih (fun x hx => h x (by simp [hx]))]
    rfl

lemma setTextureFromBufferList_unresolved (name : String)
    (textureBuffer : GLTextureBuffer) (l : List GLShaderTexture)
    (h : ∀ t ∈ l, t.name = name → t.location = -1) :
    setTextureFromBufferList name textureBuffer l =
      .error ("No texture with name " ++ name) := by
  induction l with
  | nil => rfl
  | cons t rest ih =>
    have hcond : t.name ≠ name ∨ t.location = -1 := by
      by_cases h1 : t.name = name
      · exact Or.inr (h t (by simp) h1)
      · exact Or.inl h1
    unfold setTextureFromBufferList
    rw [if_pos (by rcases hcond with h1 | h1 <;> simp [h1]),
      ih (fun x hx => h x (by simp [hx]))]
    rfl

lemma setTextureFromColormapList_unresolved (name colormapName : String)
    (allowUpdate : Bool) (l : List GLShaderTexture)
    (h : ∀ t ∈ l, t.name = name → t.location = -1) :
    setTextureFromColormapList name colormapName allowUpdate l =
      .error ("No texture with name " ++ name) := by
  induction l with
  | nil => rfl
  | cons t rest ih =>
    have hcond : t.name ≠ name ∨ t.location = -1 := by
      by_cases h1 : t.name = name
      · exact Or.inr (h t (by simp) h1)
      · exact Or.inl h1
    unfold setTextureFromColormapList
    rw [if_pos (by rcases hcond with h1 | h1 <;> simp [h1]),
      ih (fun x hx => h x (by simp [hx]))]
    rfl

end GLShaderProgram

end PsPlus

namespace PsPlus

open GLShaderProgram

/-- C2 (amended): for an unresolved (location `-1`) name, `setUniform` and the
buffer-binding `setAttribute` overload are silent no-ops and the `has*`
queries report false, but the data-vector `setAttribute` overloads and the
texture setters throw. -/
theorem C2_unresolved_names :
    (∀ t p name u, p.uniforms.find? (fun v => decide (v.name = name)) = some u →
      u.location = -1 → setUniform t p name = .ok p) ∧
    (∀ p name, (∀ u ∈ p.uniforms, u.name = name → u.location = -1) →
      hasUniform p name = false) ∧
    (∀ compat p name buf a,
      p.attributes.find? (fun v => decide (v.name = name)) = some a →
      a.location = -1 → setAttribute_buffer compat p name buf = .ok p) ∧
    (∀ w p name, (∀ a ∈ p.attributes, a.name = name → a.location = -1) →
      setAttribute_data w p name =
        .error ("Tried to set nonexistent attribute with name " ++ name)) ∧
    (∀ p name, (∀ a ∈ p.attributes, a.name = name → a.location = -1) →
      hasAttribute p name = false) ∧
    (∀ p name texData width height wa mm rp,
      (∀ t ∈ p.textures, t.name = name → t.location = -1) →
      setTexture2D p name texData width height wa mm rp =
        .error ("No texture with name " ++ name)) ∧
    (∀ p name tb, (∀ t ∈ p.textures, t.name = name → t.location = -1) →
      setTextureFromBuffer p name tb = .error ("No texture with name " ++ name)) ∧
    (∀ p name cm au, (∀ t ∈ p.textures, t.name = name → t.location = -1) →
      setTextureFromColormap p name cm au = .error ("No texture with name " ++ name)) ∧
    (∀ p name, (∀ t ∈ p.textures, t.name = name → t.location = -1) →
      hasTexture p name = false) := by
  refine ⟨?_, ?_, ?_, ?_, ?_, ?_, ?_, ?_, ?_⟩
  · intro t p name u hfind hloc
    unfold setUniform
    rw [setUniformList_unresolved t name p.uniforms u hfind hloc]
    rfl
  · intro p name h
    unfold hasUniform
    rw [List.any_eq_false]
    intro u hu
    simp only [Bool.and_eq_true, decide_eq_true_eq, not_and]
    intro hn
    simp [h u hu hn]
  · intro compat p name buf a hfind hloc
    unfold setAttribute_buffer
    rw [setAttributeBufferList_unresolved compat buf name p.attributes a hfind hloc]
    rfl
  · intro w p name h
    unfold setAttribute_data
    rw [setAttributeDataList_unresolved w name p.attributes h]
    rfl
  · intro p name h
    unfold hasAttribute
    rw [List.any_eq_false]
    intro a ha
    simp only [Bool.and_eq_true, decide_eq_true_eq, not_and]
    intro hn
    simp [h a ha hn]
  · intro p name texData width height wa mm rp h
    unfold setTexture2D
    rw [setTexture2DList_unresolved name texData width height wa mm rp p.textures h]
    rfl
  · intro p name tb h
    unfold setTextureFromBuffer
    rw [setTextureFromBufferList_unresolved name tb p.textures h]
    rfl
  · intro p name cm au h
    unfold setTextureFromColormap
    rw [setTextureFromColormapList_unresolved name cm au p.textures h]
    rfl
  · intro p name h
    unfold hasTexture
    rw [List.any_eq_false]
    intro t ht
    simp only [Bool.and_eq_true, decide_eq_true_eq, not_and]
    intro hn
    simp [h t ht hn]



/-- C2 counterexample: on the program above, the data `setAttribute` and the
texture setter throw instead of succeeding silently. -/
theorem C2_unresolved_names_counterexample :
    setAttribute_data (fun b => .ok b) unresolvedProgram "a_position" =
      .error "Tried to set nonexistent attribute with name a_position" ∧
    setTexture2D unresolvedProgram "t_image" [] 1 1 false false false =
      .error "No texture with name t_image" ∧
    setTextureFromBuffer unresolvedProgram "t_image" ⟨0, 2⟩ =
      .error "No texture with name t_image" := by
  refine ⟨?_, ?_, ?_⟩ <;> rfl

theorem C2_unresolved_names_witness :
    setUniform .Vector3Float unresolvedProgram "u_color" = .ok unresolvedProgram :=
  C2_unresolved_names.1 .Vector3Float unresolvedProgram "u_color"
    ⟨"u_color", .Vector3Float, false, -1⟩ (by decide) rfl

end PsPlus

namespace PsPlus

namespace GLShaderProgram

lemma setTexture2DList_alreadySet (name : String) (texData : List Nat)
    (width height : Nat) (wa mm rp : Bool) (l : List GLShaderTexture)
    (t : GLShaderTexture)
    (hfind : l.find? (fun x => decide (x.name = name ∧ x.location ≠ -1)) = some t)
    (hset : t.isSet = true) :
    setTexture2DList name texData width height wa mm rp l =
      .error "Attempted to set texture twice" := by
  induction l with
  | nil => cases hfind
  | cons x rest ih =>
    by_cases h : x.name = name ∧ x.location ≠ -1
    · rw [List.find?_cons_of_pos _ (by simp [h.1, h.2])] at hfind
      have hx : x = t := Option.some.inj hfind
      unfold setTexture2DList
      rw [if_neg (by simp [h.1, h.2]), if_pos (by rw [hx]; exact hset)]
    · rw [List.find?_cons_of_neg _ (by simpa using h)] at hfind
      unfold setTexture2DList
      rw [if_pos (by
          push_neg at h
          by_cases h1 : x.name = name
          · simp [h1, h h1]
          · simp [h1]),
        ih hfind]
      rfl

lemma setTextureFromColormapList_alreadySet (name cm : String)
    (l : List GLShaderTexture) (t : GLShaderTexture)
    (hfind : l.find? (fun x => decide (x.name = name ∧ x.location ≠ -1)) = some t)
    (hset : t.isSet = true) :
    setTextureFromColormapList name cm false l =
      .error "Attempted to set texture twice" := by
  induction l with
  | nil => cases hfind
  | cons x rest ih =>
    by_cases h : x.name = name ∧ x.location ≠ -1
    · rw [List.find?_cons_of_pos _ (by simp [h.1, h.2])] at hfind
      have hx : x = t := Option.some.inj hfind
      unfold setTextureFromColormapList
      rw [if_neg (by simp [h.1, h.2]), if_pos (by rw [hx]; simp [hset])]
    · rw [List.find?_cons_of_neg _ (by simpa using h)] at hfind
      unfold setTextureFromColormapList
      rw [if_pos (by
          push_neg at h
          by_cases h1 : x.name = name
          · simp [h1, h h1]
          · simp [h1]),
        ih hfind]
      rfl

lemma setTextureFromColormapList_update (name cm : String)
    (l : List GLShaderTexture) (t : GLShaderTexture)
    (hfind : l.find? (fun x => decide (x.name = name ∧ x.location ≠ -1)) = some t)
    (hdim : t.dim = 1) :
    ∃ l', setTextureFromColormapList name cm true l = .ok l' ∧
      l'.find? (fun x => decide (x.name = name ∧ x.location ≠ -1)) =
        some { t with textureBuffer := some (.ownedColormap cm), isSet := true } := by
  induction l with
  | nil => cases hfind
  | cons x rest ih =>
    by_cases h : x.name = name ∧ x.location ≠ -1
    · rw [List.find?_cons_of_pos _ (by simp [h.1, h.2])] at hfind
      have hx : x = t := Option.some.inj hfind
      subst hx
      refine ⟨{ x with textureBuffer := some (.ownedColormap cm), isSet := true } :: rest,
        ?_, ?_⟩
      · unfold setTextureFromColormapList
        rw [if_neg (by simp [h.1, h.2]), if_neg (by simp), if_neg (by simp [hdim])]
      · rw [List.find?_cons_of_pos _ (by simp [h.1, h.2])]
    · rw [List.find?_cons_of_neg _ (by simpa using h)] at hfind
      obtain ⟨l', hl', hfind'⟩ := ih hfind
      refine ⟨x :: l', ?_, ?_⟩
      · unfold setTextureFromColormapList
        rw [if_pos (by
          push_neg at h
          by_cases h1 : x.name = name
          · simp [h1, h h1]
          · simp [h1]),
          hl']
        rfl
      · rw [List.find?_cons_of_neg _ (by simpa using h)]
        exact hfind'

lemma setTextureFromBufferList_update (name : String) (tb : GLTextureBuffer)
    (l : List GLShaderTexture) (t : GLShaderTexture)
    (hfind : l.find? (fun x => decide (x.name = name ∧ x.location ≠ -1)) = some t)
    (hdim : t.dim = tb.dim) :
    ∃ l', setTextureFromBufferList name tb l = .ok l' ∧
      l'.find? (fun x => decide (x.name = name ∧ x.location ≠ -1)) =
        some { t with textureBuffer := some (.external tb), isSet := true } := by
  induction l with
  | nil => cases hfind
  | cons x rest ih =>
    by_cases h : x.name = name ∧ x.location ≠ -1
    · rw [List.find?_cons_of_pos _ (by simp [h.1, h.2])] at hfind
      have hx : x = t := Option.some.inj hfind
      subst hx
      refine ⟨{ x with textureBuffer := some (.external tb), isSet := true } :: rest,
        ?_, ?_⟩
      · unfold setTextureFromBufferList
        rw [if_neg (by simp [h.1, h.2]), if_neg (by simp [hdim])]
      · rw [List.find?_cons_of_pos _ (by simp [h.1, h.2])]
    · rw [List.find?_cons_of_neg _ (by simpa using h)] at hfind
      obtain ⟨l', hl', hfind'⟩ := ih hfind
      refine ⟨x :: l', ?_, ?_⟩
      · unfold setTextureFromBufferList
        rw [if_pos (by
          push_neg at h
          by_cases h1 : x.name = name
          · simp [h1, h h1]
          · simp [h1]),
          hl']
        rfl
      · rw [List.find?_cons_of_neg _ (by simpa using h)]
        exact hfind'

end GLShaderProgram

end PsPlus

namespace PsPlus

open GLShaderProgram

/-- C3 (amended): re-setting an already-set resolved texture slot fails for
the raw-data setters (`setTexture1D` always throws), and for the colormap
setter unless `allowUpdate`; with `allowUpdate` the colormap setter replaces
the texture; `setTextureFromBuffer` performs no already-set check and
silently replaces the bound texture. -/
theorem C3_texture_reset :
    (∀ p name texData width height wa mm rp t,
      p.textures.find? (fun x => decide (x.name = name ∧ x.location ≠ -1)) = some t →
      t.isSet = true →
      setTexture2D p name texData width height wa mm rp =
        .error "Attempted to set texture twice") ∧
    (∀ p name texData len,
      setTexture1D p name texData len = .error "This code hasn't been testded yet.") ∧
    (∀ p name cm t,
      p.textures.find? (fun x => decide (x.name = name ∧ x.location ≠ -1)) = some t →
      t.isSet = true →
      setTextureFromColormap p name cm false = .error "Attempted to set texture twice") ∧
    (∀ p name cm t,
      p.textures.find? (fun x => decide (x.name = name ∧ x.location ≠ -1)) = some t →
      t.dim = 1 →
      ∃ q, setTextureFromColormap p name cm true = .ok q ∧
        q.textures.find? (fun x => decide (x.name = name ∧ x.location ≠ -1)) =
          some { t with textureBuffer := some (.ownedColormap cm), isSet := true }) ∧
    (∀ p name tb t,
      p.textures.find? (fun x => decide (x.name = name ∧ x.location ≠ -1)) = some t →
      t.dim = tb.dim →
      ∃ q, setTextureFromBuffer p name tb = .ok q ∧
        q.textures.find? (fun x => decide (x.name = name ∧ x.location ≠ -1)) =
          some { t with textureBuffer := some (.external tb), isSet := true }) := by
  refine ⟨?_, ?_, ?_, ?_, ?_⟩
  · intro p name texData width height wa mm rp t hfind hset
    unfold setTexture2D
    rw [setTexture2DList_alreadySet name texData width height wa mm rp p.textures t
      hfind hset]
    rfl
  · intro p name texData len
    rfl
  · intro p name cm t hfind hset
    unfold setTextureFromColormap
    rw [setTextureFromColormapList_alreadySet name cm p.textures t hfind hset]
    rfl
  · intro p name cm t hfind hdim
    obtain ⟨l', hl', hfind'⟩ := setTextureFromColormapList_update name cm p.textures t
      hfind hdim
    refine ⟨{ p with textures := l' }, ?_, hfind'⟩
    unfold setTextureFromColormap
    rw [hl']
    rfl
  · intro p name tb t hfind hdim
    obtain ⟨l', hl', hfind'⟩ := setTextureFromBufferList_update name tb p.textures t
      hfind hdim
    refine ⟨{ p with textures := l' }, ?_, hfind'⟩
    unfold setTextureFromBuffer
    rw [hl']
    rfl



/-- C3 counterexample: `setTextureFromBuffer` on the already-set slot of the
program above succeeds and replaces the texture — not a hard error, and not
the colormap path. -/
theorem C3_texture_reset_counterexample :
    setTextureFromBuffer boundTexProgram "t_image" ⟨9, 2⟩ =
      .ok { boundTexProgram with
              textures := [⟨"t_image", 2, 0, true, some (.external ⟨9, 2⟩), 3⟩] } := by
  rfl

theorem C3_texture_reset_witness :
    setTexture2D boundTexProgram "t_image" [] 4 4 false false false =
      .error "Attempted to set texture twice" :=
  C3_texture_reset.1 boundTexProgram "t_image" [] 4 4 false false false
    ⟨"t_image", 2, 0, true, some (.external ⟨5, 2⟩), 3⟩ (by decide) rfl

end PsPlus

namespace PsPlus

namespace GLEngine



lemma processRulesAux_ok (registered : List (String × ShaderReplacementRule))
    (l : List String) (seen : List String)
    (h : ∀ x ∈ l, x ≠ "" → (lookup registered x).isSome) :
    processRulesAux registered seen l =
      .ok ((firstOccurrencesAux seen l).map
        (fun n => (lookup registered n).getD ⟨n, [], [], []⟩)) := by
  induction l generalizing seen with
  | nil => rfl
  | cons x rest ih =>
    have hrest : ∀ y ∈ rest, y ≠ "" → (lookup registered y).isSome :=
      fun y hy => h y (by simp [hy])
    by_cases hx : x = ""
    · unfold processRulesAux firstOccurrencesAux
      rw [if_pos hx, ih _ hrest, if_pos (Or.inl hx)]
    · by_cases hseen : x ∈ seen
      · unfold processRulesAux firstOccurrencesAux
        rw [if_neg hx, if_pos hseen, ih _ hrest, if_pos (Or.inr hseen)]
      · have hsome := h x (by simp) hx
        obtain ⟨r, hr⟩ := Option.isSome_iff_exists.mp hsome
        unfold processRulesAux firstOccurrencesAux
        rw [if_neg hx, if_neg hseen]
        rw [hr, ih _ hrest]
        rw [if_neg (by push_neg; exact ⟨hx, hseen⟩)]
        simp only [List.map_cons, hr, Option.getD_some]
        rfl

lemma processRulesAux_unknown (registered : List (String × ShaderReplacementRule))
    (l : List String) (seen : List String) (x : String)
    (hx : x ∈ l) (hne : x ≠ "") (hnoseen : x ∉ seen)
    (hmiss : lookup registered x = none) :
    processRulesAux registered seen l =
      .error ("No shader replacement rule with name [" ++ x ++ "] registered.") ∨
    ∃ y, y ≠ x ∧ processRulesAux registered seen l =
      .error ("No shader replacement rule with name [" ++ y ++ "] registered.") := by
  induction l generalizing seen with
  | nil => cases hx
  | cons z rest ih =>
    by_cases hz : z = ""
    · have hxr : x ∈ rest := by
        rcases List.mem_cons.mp hx with h1 | h1
        · exact absurd (h1 ▸ hz) hne
        · exact h1
      have hxz : x ≠ z := fun hh => hne (hh.trans hz)
      have hns : x ∉ seen ++ [z] := by simp [hnoseen, hxz]
      unfold processRulesAux
      rw [if_pos hz]
      exact ih _ hxr hns
    · by_cases hseen : z ∈ seen
      · have hzx : z ≠ x := fun hh => hnoseen (hh ▸ hseen)
        have hxr : x ∈ rest := by
          rcases List.mem_cons.mp hx with h1 | h1
          · exact absurd h1.symm hzx
          · exact h1
        have hxz : x ≠ z := fun hh => hzx hh.symm
        have hns : x ∉ seen ++ [z] := by simp [hnoseen, hxz]
        unfold processRulesAux
        rw [if_neg hz, if_pos hseen]
        exact ih _ hxr hns
      · unfold processRulesAux
        rw [if_neg hz, if_neg hseen]
        cases hlz : lookup registered z with
        | none =>
          by_cases hzx : z = x
          · left; rw [hzx]
          · right; exact ⟨z, hzx, rfl⟩
        | some r =>
          have hzx : z ≠ x := fun hh => by rw [hh, hmiss] at hlz; cases hlz
          have hxr : x ∈ rest := by
            rcases List.mem_cons.mp hx with h1 | h1
            · exact absurd h1.symm hzx
            · exact h1
          have hxz : x ≠ z := fun hh => hzx hh.symm
          have hns : x ∉ seen ++ [z] := by simp [hnoseen, hxz]
          rcases ih _ hxr hns with h1 | ⟨y, hy, h1⟩
          · left; rw [h1]; rfl
          · right; exact ⟨y, hy, by rw [h1]; rfl⟩

lemma processRulesAux_seen_congr (registered : List (String × ShaderReplacementRule))
    (l : List String) : ∀ seen1 seen2,
    (∀ y, y ≠ "" → (y ∈ seen1 ↔ y ∈ seen2)) →
    processRulesAux registered seen1 l = processRulesAux registered seen2 l := by
  induction l with
  | nil => intro _ _ _; rfl
  | cons x rest ih =>
    intro s1 s2 hequiv
    have hrec : ∀ y, y ≠ "" → (y ∈ s1 ++ [x] ↔ y ∈ s2 ++ [x]) := by
      intro y hy
      simp [hequiv y hy]
    by_cases hx : x = ""
    · unfold processRulesAux
      rw [if_pos hx, if_pos hx]
      exact ih _ _ hrec
    · by_cases hm : x ∈ s1
      · have hm2 : x ∈ s2 := (hequiv x hx).mp hm
        unfold processRulesAux
        rw [if_neg hx, if_neg hx, if_pos hm, if_pos hm2]
        exact ih _ _ hrec
      · have hm2 : x ∉ s2 := fun hh => hm ((hequiv x hx).mpr hh)
        unfold processRulesAux
        rw [if_neg hx, if_neg hx, if_neg hm, if_neg hm2]
        cases lookup registered x with
        | none => rfl
        | some r => rw [ih _ _ hrec]

lemma processRules_empty_cons (registered : List (String × ShaderReplacementRule))
    (rest : List String) :
    processRules registered ("" :: rest) = processRules registered rest := by
  have h1 : processRules registered ("" :: rest) =
      processRulesAux registered ([] ++ [""]) rest := rfl
  rw [h1]
  exact processRulesAux_seen_congr registered rest ([] ++ [""]) []
    (by intro y hy; simp [hy])

end GLEngine

end PsPlus

namespace PsPlus

open GLEngine

/-- C7: rule names resolve in the caller-supplied order with only the first
occurrence of a duplicate applied, the empty name is a no-op, and a
non-empty name absent from the registry is a hard error. -/
theorem C7_rule_resolution :
    (∀ registered fullRules,
      (∀ x ∈ fullRules, x ≠ "" → (lookup registered x).isSome) →
      processRules registered fullRules =
        .ok ((firstOccurrences fullRules).map
          (fun n => (lookup registered n).getD ⟨n, [], [], []⟩))) ∧
    (∀ registered fullRules x, x ∈ fullRules → x ≠ "" →
      lookup registered x = none →
      ∃ msg, processRules registered fullRules = .error msg) ∧
    (∀ registered rest,
      processRules registered ("" :: rest) = processRules registered rest) := by
  refine ⟨?_, ?_, processRules_empty_cons⟩
  · intro registered fullRules h
    exact processRulesAux_ok registered fullRules [] h
  · intro registered fullRules x hx hne hmiss
    rcases processRulesAux_unknown registered fullRules [] x hx hne (by simp) hmiss with
      h1 | ⟨y, _, h1⟩
    · exact ⟨_, h1⟩
    · exact ⟨_, h1⟩

theorem C7_rule_resolution_witness :
    processRules [("A", ⟨"A", [], [], []⟩), ("B", ⟨"B", [], [], []⟩)]
        ["B", "", "A", "B"] =
      .ok [⟨"B", [], [], []⟩, ⟨"A", [], [], []⟩] :=
  C7_rule_resolution.1 [("A", ⟨"A", [], [], []⟩), ("B", ⟨"B", [], [], []⟩)]
    ["B", "", "A", "B"] (by decide)

end PsPlus

namespace PsPlus

namespace GLEngine

lemma lookup_eq_none_iff (l : List (String × α)) (k : String) :
    lookup l k = none ↔ ∀ p ∈ l, p.1 ≠ k := by
  unfold lookup
  simp [List.find?_eq_none]

lemma lookup_mem {l : List (String × α)} {k : String} {v : α}
    (h : lookup l k = some v) : (k, v) ∈ l := by
  unfold lookup at h
  cases hf : l.find? (fun p => p.1 = k) with
  | none => rw [hf] at h; cases h
  | some q =>
    rw [hf] at h
    have hq : q ∈ l := List.mem_of_find?_eq_some hf
    have hk : q.1 = k := by
      have := List.find?_some hf
      simpa using this
    have hv : q.2 = v := Option.some.inj h
    have : (k, v) = q := by
      rw [← hk, ← hv]
    rw [this]
    exact hq

lemma lookup_append_of_none {l : List (String × α)} {k : String}
    (h : lookup l k = none) (v : α) : lookup (l ++ [(k, v)]) k = some v := by
  unfold lookup at h ⊢
  cases hf : l.find? (fun p => p.1 = k) with
  | none =>
    rw [List.find?_append, hf]
    simp
  | some q => rw [hf] at h; cases h

lemma lookup_append_of_ne {l : List (String × α)} {k k' : String} (hne : k' ≠ k)
    (v : α) : lookup (l ++ [(k, v)]) k' = lookup l k' := by
  unfold lookup
  rw [List.find?_append]
  cases hf : l.find? (fun p => p.1 = k') with
  | some q => rfl
  | none =>
    simp [Option.orElse]
    intro hcontra
    exact absurd hcontra.symm hne

end GLEngine

end PsPlus

namespace PsPlus

namespace GLEngine

lemma getCompiledProgram_hit {e : GLEngine} {n : String} {rs : List String}
    {d : ShaderReplacementDefaults} {pid : Nat}
    (h : lookup e.compiledProgamCache (e.programKeyFromRules n rs d) = some pid) :
    getCompiledProgram e n rs d = .ok (e, pid) := by
  simp only [getCompiledProgram]
  rw [h]

lemma getCompiledProgram_miss_ok {e : GLEngine} {n : String} {rs : List String}
    {d : ShaderReplacementDefaults} {e1 : GLEngine} {p1 : Nat}
    (hc : lookup e.compiledProgamCache (e.programKeyFromRules n rs d) = none)
    (h : getCompiledProgram e n rs d = .ok (e1, p1)) :
    p1 = e.nextProgramId ∧
    e1 = { e with
            compiledProgamCache := e.compiledProgamCache ++
              [(e.programKeyFromRules n rs d, e.nextProgramId)],
            nextProgramId := e.nextProgramId + 1 } := by
  simp only [getCompiledProgram, hc] at h
  cases hp : lookup e.registeredShaderPrograms n with
  | none =>
    simp only [hp] at h
    exact Except.noConfusion h
  | some sd =>
    obtain ⟨stages, dm⟩ := sd
    simp only [hp] at h
    cases hr : processRules e.registeredShaderRules (rs ++ e.defaultsRuleList d) with
    | error msg =>
      simp only [hr, Except.bind] at h
      exact Except.noConfusion h
    | ok rules =>
      simp only [hr, Except.bind] at h
      cases hcst : GLCompiledProgram.construct (applyShaderReplacements stages rules) with
      | error msg =>
        simp only [hcst, Except.map] at h
        exact Except.noConfusion h
      | ok iface =>
        simp only [hcst, Except.map] at h
        have h2 := Except.ok.inj h
        exact ⟨(congrArg Prod.snd h2).symm, (congrArg Prod.fst h2).symm⟩

end GLEngine

end PsPlus

namespace PsPlus

namespace GLEngine

lemma defaultsRuleList_update (e : GLEngine) (cache : List (String × Nat))
    (next : Nat) (d : ShaderReplacementDefaults) :
    defaultsRuleList
      { e with compiledProgamCache := cache, nextProgramId := next } d =
      defaultsRuleList e d := by
  cases d <;> rfl

lemma programKeyFromRules_update (e : GLEngine) (cache : List (String × Nat))
    (next : Nat) (n : String) (rs : List String) (d : ShaderReplacementDefaults) :
    programKeyFromRules
      { e with compiledProgamCache := cache, nextProgramId := next } n rs d =
      programKeyFromRules e n rs d := by
  unfold programKeyFromRules
  rw [defaultsRuleList_update]

lemma getCompiledProgram_preserves_WF {e : GLEngine} {n : String} {rs : List String}
    {d : ShaderReplacementDefaults} {e1 : GLEngine} {p1 : Nat}
    (hwf : CacheWF e) (h : getCompiledProgram e n rs d = .ok (e1, p1)) :
    CacheWF e1 := by
  cases hc : lookup e.compiledProgamCache (e.programKeyFromRules n rs d) with
  | some pid =>
    have hh := getCompiledProgram_hit hc
    rw [h] at hh
    obtain ⟨he, hp⟩ := Prod.mk.inj (Except.ok.inj hh)
    rw [he]
    exact hwf
  | none =>
    obtain ⟨hp1, he1⟩ := getCompiledProgram_miss_ok hc h
    rw [he1]
    have hkeys := (lookup_eq_none_iff _ _).mp hc
    constructor
    · rw [List.pairwise_append]
      refine ⟨hwf.1, by simp, ?_⟩
      intro a ha b hb
      simp only [List.mem_singleton] at hb
      subst hb
      exact ⟨hkeys a ha, Nat.ne_of_lt (hwf.2 a ha)⟩
    · intro p hp
      rcases List.mem_append.mp hp with h1 | h1
      · exact Nat.lt_succ_of_lt (hwf.2 p h1)
      · simp only [List.mem_singleton] at h1
        subst h1
        exact Nat.lt_succ_self _

lemma getCompiledProgram_again {e : GLEngine} {n : String} {rs : List String}
    {d : ShaderReplacementDefaults} {e1 : GLEngine} {p1 : Nat}
    (h : getCompiledProgram e n rs d = .ok (e1, p1)) :
    getCompiledProgram e1 n rs d = .ok (e1, p1) := by
  cases hc : lookup e.compiledProgamCache (e.programKeyFromRules n rs d) with
  | some pid =>
    have hh := getCompiledProgram_hit hc
    rw [h] at hh
    obtain ⟨he, hp⟩ := Prod.mk.inj (Except.ok.inj hh)
    subst he hp
    exact getCompiledProgram_hit hc
  | none =>
    obtain ⟨hp1, he1⟩ := getCompiledProgram_miss_ok hc h
    subst hp1
    have hkeq : e1.programKeyFromRules n rs d = e.programKeyFromRules n rs d := by
      rw [he1]
      exact programKeyFromRules_update e _ _ n rs d
    apply getCompiledProgram_hit
    rw [hkeq, he1]
    exact lookup_append_of_none hc e.nextProgramId

lemma getCompiledProgram_distinct {e : GLEngine} {n1 n2 : String}
    {rs1 rs2 : List String} {d1 d2 : ShaderReplacementDefaults}
    {e1 e2 : GLEngine} {p1 p2 : Nat}
    (hwf : CacheWF e)
    (hkey : e.programKeyFromRules n1 rs1 d1 ≠ e.programKeyFromRules n2 rs2 d2)
    (h1 : getCompiledProgram e n1 rs1 d1 = .ok (e1, p1))
    (h2 : getCompiledProgram e1 n2 rs2 d2 = .ok (e2, p2)) :
    p1 ≠ p2 := by
  have hsymm : Symmetric (fun p q : String × Nat => p.1 ≠ q.1 ∧ p.2 ≠ q.2) := by
    intro a b hab
    exact ⟨hab.1.symm, hab.2.symm⟩
  cases hc1 : lookup e.compiledProgamCache (e.programKeyFromRules n1 rs1 d1) with
  | some pid1 =>
    have hh := getCompiledProgram_hit hc1
    rw [h1] at hh
    obtain ⟨he, hp⟩ := Prod.mk.inj (Except.ok.inj hh)
    subst hp
    rw [he] at h2
    have hmem1 := lookup_mem hc1
    cases hc2 : lookup e.compiledProgamCache (e.programKeyFromRules n2 rs2 d2) with
    | some pid2 =>
      have hh2 := getCompiledProgram_hit hc2
      rw [h2] at hh2
      obtain ⟨he2, hp2⟩ := Prod.mk.inj (Except.ok.inj hh2)
      subst hp2
      have hmem2 := lookup_mem hc2
      have hne : (e.programKeyFromRules n1 rs1 d1, p1) ≠
          (e.programKeyFromRules n2 rs2 d2, p2) := by
        intro hcontra
        exact hkey (congrArg Prod.fst hcontra)
      exact (hwf.1.forall hsymm hmem1 hmem2 hne).2
    | none =>
      obtain ⟨hp2, _⟩ := getCompiledProgram_miss_ok hc2 h2
      subst hp2
      exact Nat.ne_of_lt (hwf.2 _ hmem1)
  | none =>
    obtain ⟨hp1, he1⟩ := getCompiledProgram_miss_ok hc1 h1
    subst hp1
    have hkeq : e1.programKeyFromRules n2 rs2 d2 = e.programKeyFromRules n2 rs2 d2 := by
      rw [he1]
      exact programKeyFromRules_update e _ _ n2 rs2 d2
    cases hc2 : lookup e1.compiledProgamCache (e1.programKeyFromRules n2 rs2 d2) with
    | some pid2 =>
      have hh2 := getCompiledProgram_hit hc2
      rw [h2] at hh2
      obtain ⟨he2, hp2⟩ := Prod.mk.inj (Except.ok.inj hh2)
      subst hp2
      have hmem2 := lookup_mem hc2
      rw [he1] at hmem2
      simp only [List.mem_append, List.mem_singleton] at hmem2
      rcases hmem2 with hm | hm
      · exact Nat.ne_of_gt (hwf.2 _ hm)
      · exfalso
        apply hkey
        have hfst := congrArg Prod.fst hm
        rw [programKeyFromRules_update] at hfst
        exact hfst.symm
    | none =>
      obtain ⟨hp2, _⟩ := getCompiledProgram_miss_ok hc2 h2
      subst hp2
      rw [he1]
      exact Nat.ne_of_lt (Nat.lt_succ_self _)

end GLEngine

end PsPlus

namespace PsPlus

open GLEngine

/-- C1 (amended): the cache key is built from the program name, the rule
names exactly as supplied (order and duplicates included), and the expanded
defaults; a repeated request with the identical argument triple returns the
identical cached program, and requests whose keys differ return distinct
program objects. -/
theorem C1_program_cache :
    (∀ (e : GLEngine) n rs d e1 p1,
      getCompiledProgram e n rs d = .ok (e1, p1) →
      getCompiledProgram e1 n rs d = .ok (e1, p1)) ∧
    (∀ (e : GLEngine) n1 rs1 d1 n2 rs2 d2 e1 p1 e2 p2, CacheWF e →
      e.programKeyFromRules n1 rs1 d1 ≠ e.programKeyFromRules n2 rs2 d2 →
      getCompiledProgram e n1 rs1 d1 = .ok (e1, p1) →
      getCompiledProgram e1 n2 rs2 d2 = .ok (e2, p2) →
      p1 ≠ p2) ∧
    (∀ (e : GLEngine) n rs d e1 p1, CacheWF e →
      getCompiledProgram e n rs d = .ok (e1, p1) → CacheWF e1) :=
  ⟨fun _ _ _ _ _ _ h => getCompiledProgram_again h,
   fun _ _ _ _ _ _ _ _ _ _ _ hwf hkey h1 h2 =>
     getCompiledProgram_distinct hwf hkey h1 h2,
   fun _ _ _ _ _ _ hwf h => getCompiledProgram_preserves_WF hwf h⟩



/-- C1 counterexample: requesting with rules `["A"]` and then with the same
rule SET written `["A", "A"]` produces two different cache keys and two
distinct compiled programs (identities 0 and 1), contradicting the claim
that duplicates in the supplied list do not affect the result and that the
key is a function of the deduplicated rule names. -/
theorem C1_program_cache_counterexample :
    sampleEngine.programKeyFromRules "P" ["A"] .None ≠
      sampleEngine.programKeyFromRules "P" ["A", "A"] .None ∧
    (sampleEngine.getCompiledProgram "P" ["A"] .None).bind
      (fun r => (r.1.getCompiledProgram "P" ["A", "A"] .None).map
        (fun r2 => (r.2, r2.2))) = .ok (0, 1) := by
  refine ⟨by decide, by rfl⟩

theorem C1_program_cache_witness :
    getCompiledProgram
      { sampleEngine with
          compiledProgamCache :=
            [(sampleEngine.programKeyFromRules "P" ["A"] .None, 0)],
          nextProgramId := 1 } "P" ["A"] .None =
      .ok ({ sampleEngine with
              compiledProgamCache :=
                [(sampleEngine.programKeyFromRules "P" ["A"] .None, 0)],
              nextProgramId := 1 }, 0) :=
  C1_program_cache.1 sampleEngine "P" ["A"] .None _ 0 rfl

end PsPlus

namespace PsPlus

namespace GLShaderProgram



lemma validateUniforms_ok_iff (l : List GLShaderUniform) :
    validateUniforms l = .ok () ↔ ∀ u ∈ l, u.location ≠ -1 → u.isSet = true := by
  induction l with
  | nil => simp [validateUniforms]
  | cons u rest ih =>
    unfold validateUniforms
    by_cases hloc : u.location = -1
    · rw [if_pos hloc, ih]
      constructor
      · intro h v hv hl
        rcases List.mem_cons.mp hv with h1 | h1
        · exact absurd (h1 ▸ hloc) hl
        · exact h v h1 hl
      · intro h v hv hl
        exact h v (by simp [hv]) hl
    · rw [if_neg hloc]
      by_cases hset : u.isSet
      · rw [if_neg (by simp [hset]), ih]
        constructor
        · intro h v hv hl
          rcases List.mem_cons.mp hv with h1 | h1
          · rw [h1]; exact hset
          · exact h v h1 hl
        · intro h v hv hl
          exact h v (by simp [hv]) hl
      · rw [if_pos (by simp [hset])]
        constructor
        · intro h; cases h
        · intro h
          exact absurd (h u (by simp) hloc) (by simp [hset])

lemma validateTextures_ok_iff (l : List GLShaderTexture) :
    validateTextures l = .ok () ↔ ∀ t ∈ l, t.location ≠ -1 → t.isSet = true := by
  induction l with
  | nil => simp [validateTextures]
  | cons t rest ih =>
    unfold validateTextures
    by_cases hloc : t.location = -1
    · rw [if_pos hloc, ih]
      constructor
      · intro h v hv hl
        rcases List.mem_cons.mp hv with h1 | h1
        · exact absurd (h1 ▸ hloc) hl
        · exact h v h1 hl
      · intro h v hv hl
        exact h v (by simp [hv]) hl
    · rw [if_neg hloc]
      by_cases hset : t.isSet
      · rw [if_neg (by simp [hset]), ih]
        constructor
        · intro h v hv hl
          rcases List.mem_cons.mp hv with h1 | h1
          · rw [h1]; exact hset
          · exact h v h1 hl
        · intro h v hv hl
          exact h v (by simp [hv]) hl
      · rw [if_pos (by simp [hset])]
        constructor
        · intro h; cases h
        · intro h
          exact absurd (h t (by simp) hloc) (by simp [hset])

lemma validateAttributes_ok_all (compat : RenderDataType → RenderDataType → Int)
    (s : Int) (l : List GLShaderAttribute)
    (h : ∀ a ∈ l, a.location ≠ -1 → attrGoodWith compat s a) :
    validateAttributes compat l s = .ok s := by
  induction l with
  | nil => rfl
  | cons a rest ih =>
    have hrest : ∀ x ∈ rest, x.location ≠ -1 → attrGoodWith compat s x :=
      fun x hx => h x (by simp [hx])
    unfold validateAttributes
    by_cases hloc : a.location = -1
    · rw [if_pos hloc]
      exact ih hrest
    · rw [if_neg hloc]
      obtain ⟨buff, hbuff, hnn, hq⟩ := h a (by simp) hloc
      simp only [hbuff]
      rw [if_neg (by omega)]
      by_cases hacc : s = -1
      · rw [if_pos hacc, hq, hacc]
        exact hacc ▸ ih hrest
      · rw [if_neg hacc, if_neg (by rw [hq]; simp)]
        exact ih hrest

lemma validateAttributes_start (compat : RenderDataType → RenderDataType → Int)
    (s : Int) (l : List GLShaderAttribute)
    (h : ∀ a ∈ l, a.location ≠ -1 → attrGoodWith compat s a) :
    validateAttributes compat l (-1) =
      .ok (if l.any (fun a => a.location ≠ -1) then s else -1) := by
  induction l with
  | nil => rfl
  | cons a rest ih =>
    have hrest : ∀ x ∈ rest, x.location ≠ -1 → attrGoodWith compat s x :=
      fun x hx => h x (by simp [hx])
    unfold validateAttributes
    by_cases hloc : a.location = -1
    · rw [if_pos hloc, ih hrest]
      simp [List.any_cons, hloc]
    · rw [if_neg hloc]
      obtain ⟨buff, hbuff, hnn, hq⟩ := h a (by simp) hloc
      simp only [hbuff]
      rw [if_neg (by omega), if_pos trivial, hq,
        validateAttributes_ok_all compat s rest hrest]
      simp [List.any_cons, hloc]

end GLShaderProgram

end PsPlus

namespace PsPlus

namespace GLShaderProgram

lemma validateAttributes_ok_sound (compat : RenderDataType → RenderDataType → Int)
    (hcompat : ∀ t1 t2, 0 < compat t1 t2) (l : List GLShaderAttribute) :
    ∀ acc s, validateAttributes compat l acc = .ok s →
      (acc ≠ -1 → acc = s) ∧
      ∀ a ∈ l, a.location ≠ -1 → attrGoodWith compat s a := by
  induction l with
  | nil =>
    intro acc s h
    refine ⟨fun _ => Except.ok.inj h, by simp⟩
  | cons a rest ih =>
    intro acc s h
    unfold validateAttributes at h
    by_cases hloc : a.location = -1
    · rw [if_pos hloc] at h
      obtain ⟨hacc, hall⟩ := ih acc s h
      refine ⟨hacc, ?_⟩
      intro x hx hxl
      rcases List.mem_cons.mp hx with h1 | h1
      · exact absurd (h1 ▸ hloc) hxl
      · exact hall x h1 hxl
    · rw [if_neg hloc] at h
      cases hbuff : a.buff with
      | none => simp only [hbuff] at h; exact Except.noConfusion h
      | some buff =>
        simp only [hbuff] at h
        by_cases hneg : buff.dataSize < 0
        · rw [if_pos hneg] at h; exact Except.noConfusion h
        · rw [if_neg hneg] at h
          have hqpos : 0 ≤ buff.dataSize.tdiv (compat a.type buff.dataType) :=
            Int.tdiv_nonneg (by omega) (le_of_lt (hcompat _ _))
          by_cases hacc : acc = -1
          · rw [if_pos hacc] at h
            obtain ⟨hq, hall⟩ := ih _ s h
            have hqs : buff.dataSize.tdiv (compat a.type buff.dataType) = s :=
              hq (by omega)
            refine ⟨fun hc => absurd hacc hc, ?_⟩
            intro x hx hxl
            rcases List.mem_cons.mp hx with h1 | h1
            · exact h1 ▸ ⟨buff, hbuff, by omega, hqs⟩
            · exact hall x h1 hxl
          · rw [if_neg hacc] at h
            by_cases hq : buff.dataSize.tdiv (compat a.type buff.dataType) ≠ acc
            · rw [if_pos (by simpa using hq)] at h; exact Except.noConfusion h
            · rw [if_neg (by simpa using hq)] at h
              push_neg at hq
              obtain ⟨haccs, hall⟩ := ih acc s h
              have hs : acc = s := haccs hacc
              refine ⟨fun _ => hs, ?_⟩
              intro x hx hxl
              rcases List.mem_cons.mp hx with h1 | h1
              · exact h1 ▸ ⟨buff, hbuff, by omega, by rw [hq, hs]⟩
              · exact hall x h1 hxl

lemma validateAttributes_bad (compat : RenderDataType → RenderDataType → Int)
    (l : List GLShaderAttribute) (a : GLShaderAttribute) (ha : a ∈ l)
    (hloc : a.location ≠ -1)
    (hbad : a.buff = none ∨ ∃ buff, a.buff = some buff ∧ buff.dataSize < 0) :
    ∀ acc, ∃ msg, validateAttributes compat l acc = .error msg := by
  induction l with
  | nil => cases ha
  | cons x rest ih =>
    intro acc
    unfold validateAttributes
    by_cases hxl : x.location = -1
    · rw [if_pos hxl]
      have hxa : a ≠ x := fun hh => hloc (hh ▸ hxl)
      have har : a ∈ rest := by
        rcases List.mem_cons.mp ha with h1 | h1
        · exact absurd h1 hxa
        · exact h1
      exact ih har acc
    · rw [if_neg hxl]
      cases hbuff : x.buff with
      | none => exact ⟨_, rfl⟩
      | some buff =>
        dsimp only
        by_cases hneg : buff.dataSize < 0
        · rw [if_pos hneg]
          exact ⟨_, rfl⟩
        · rw [if_neg hneg]
          have hxa : a ≠ x := by
            intro hh
            subst hh
            rcases hbad with h1 | ⟨b2, hb2, hn2⟩
            · rw [h1] at hbuff; cases hbuff
            · rw [hb2] at hbuff
              exact hneg (Option.some.inj hbuff ▸ hn2)
          have har : a ∈ rest := by
            rcases List.mem_cons.mp ha with h1 | h1
            · exact absurd h1 hxa
            · exact h1
          by_cases hacc : acc = -1
          · rw [if_pos hacc]
            exact ih har _
          · rw [if_neg hacc]
            by_cases hq : buff.dataSize.tdiv (compat x.type buff.dataType) ≠ acc
            · rw [if_pos (by simpa using hq)]
              exact ⟨_, rfl⟩
            · rw [if_neg (by simpa using hq)]
              exact ih har acc

end GLShaderProgram

end PsPlus

namespace PsPlus

lemma except_not_ok {α : Type} (x : Except String α) (h : ∀ v, x ≠ .ok v) :
    ∃ msg, x = .error msg := by
  cases x with
  | ok v => exact absurd rfl (h v)
  | error msg => exact ⟨msg, rfl⟩

lemma exceptOkBind {α β : Type} (a : α) (f : α → Except String β) :
    (Except.ok a >>= f) = f a := rfl

lemma exceptErrBind {α β : Type} (msg : String) (f : α → Except String β) :
    ((Except.error msg : Except String α) >>= f) = .error msg := rfl

namespace GLShaderProgram

lemma validateAttributes_inconsistent (compat : RenderDataType → RenderDataType → Int)
    (hcompat : ∀ t1 t2, 0 < compat t1 t2) (l : List GLShaderAttribute)
    (a b : GLShaderAttribute) (ha : a ∈ l) (hb : b ∈ l)
    (hal : a.location ≠ -1) (hbl : b.location ≠ -1)
    (buffa buffb : GLAttributeBuffer)
    (hba : a.buff = some buffa) (hbb : b.buff = some buffb)
    (hq : Int.tdiv buffa.dataSize (compat a.type buffa.dataType) ≠
          Int.tdiv buffb.dataSize (compat b.type buffb.dataType)) :
    ∀ acc, ∃ msg, validateAttributes compat l acc = .error msg := by
  intro acc
  apply except_not_ok
  intro s hok
  obtain ⟨-, hall⟩ := validateAttributes_ok_sound compat hcompat l acc s hok
  obtain ⟨ba, hba', -, hqa⟩ := hall a ha hal
  obtain ⟨bb, hbb', -, hqb⟩ := hall b hb hbl
  rw [hba] at hba'
  rw [hbb] at hbb'
  rw [← Option.some.inj hba'] at hqa
  rw [← Option.some.inj hbb'] at hqb
  exact hq (hqa.trans hqb.symm)

lemma validateData_success_core (compat : RenderDataType → RenderDataType → Int)
    (p : GLShaderProgram) (s : Int)
    (hu : ∀ u ∈ p.uniforms, u.location ≠ -1 → u.isSet = true)
    (ha : ∀ a ∈ p.attributes, a.location ≠ -1 → attrGoodWith compat s a)
    (ht : ∀ t ∈ p.textures, t.location ≠ -1 → t.isSet = true)
    (hinst : ¬((p.drawMode = DrawMode.TrianglesInstanced ∨
        p.drawMode = DrawMode.TriangleStripInstanced) ∧
        p.instanceCount = INVALID_IND_32)) :
    (∀ ib, p.useIndex = true → p.indexBuffer = some ib →
      validateData compat p = .ok { p with drawDataLength :=
        (((p.indexSizeMult : Int) * ib.dataSize) % (2 ^ 32 : Int)).toNat }) ∧
    (p.useIndex = false →
      validateData compat p = .ok { p with drawDataLength :=
        (((if p.attributes.any (fun a => a.location ≠ -1) then s else -1) %
          (2 ^ 32 : Int)).toNat) }) := by
  have hvu : validateUniforms p.uniforms = .ok () := (validateUniforms_ok_iff _).mpr hu
  have hvt : validateTextures p.textures = .ok () := (validateTextures_ok_iff _).mpr ht
  have hva := validateAttributes_start compat s p.attributes ha
  have hcond : ¬ (((p.drawMode = DrawMode.TrianglesInstanced ||
      p.drawMode = DrawMode.TriangleStripInstanced) &&
      p.instanceCount = INVALID_IND_32) = true) := by
    simp only [Bool.and_eq_true, Bool.or_eq_true, decide_eq_true_eq]
    intro hc
    exact hinst hc
  constructor
  · intro ib hidx hib
    simp only [validateData, hvu, hva, hvt, hib, exceptOkBind]
    rw [if_neg hcond, if_pos hidx]
  · intro hidx
    cases hib : p.indexBuffer with
    | none =>
      simp only [validateData, hvu, hva, hvt, hib, exceptOkBind]
      rw [if_neg (by simp [hidx]), if_neg hcond]
    | some ib =>
      simp only [validateData, hvu, hva, hvt, hib, exceptOkBind]
      rw [if_neg hcond, if_neg (by simp [hidx])]

end GLShaderProgram

end PsPlus

namespace PsPlus

open GLShaderProgram

/-- C8: `validateData` fails when a resolved uniform is unset, a resolved
attribute lacks a buffer or committed data, resolved attributes disagree in
size after dividing by the compatibility multipliers, a resolved texture is
unset, index mode lacks an index buffer, or an instanced mode lacks an
instance count; on success the draw length is the index length times the
index multiplicity when indexed, else the common attribute length. -/
theorem C8_validateData (compat : RenderDataType → RenderDataType → Int)
    (p : GLShaderProgram) :
    ((∃ u ∈ p.uniforms, u.location ≠ -1 ∧ u.isSet = false) →
      ∃ msg, validateData compat p = .error msg) ∧
    ((∃ a ∈ p.attributes, a.location ≠ -1 ∧ a.buff = none) →
      ∃ msg, validateData compat p = .error msg) ∧
    ((∃ a ∈ p.attributes, a.location ≠ -1 ∧
        ∃ buff, a.buff = some buff ∧ buff.dataSize < 0) →
      ∃ msg, validateData compat p = .error msg) ∧
    ((∀ t1 t2, 0 < compat t1 t2) →
      (∃ a ∈ p.attributes, ∃ b ∈ p.attributes, a.location ≠ -1 ∧ b.location ≠ -1 ∧
        ∃ buffa buffb, a.buff = some buffa ∧ b.buff = some buffb ∧
          Int.tdiv buffa.dataSize (compat a.type buffa.dataType) ≠
          Int.tdiv buffb.dataSize (compat b.type buffb.dataType)) →
      ∃ msg, validateData compat p = .error msg) ∧
    ((∃ t ∈ p.textures, t.location ≠ -1 ∧ t.isSet = false) →
      ∃ msg, validateData compat p = .error msg) ∧
    (p.useIndex = true → p.indexBuffer = none →
      ∃ msg, validateData compat p = .error msg) ∧
    ((p.drawMode = DrawMode.TrianglesInstanced ∨
        p.drawMode = DrawMode.TriangleStripInstanced) →
      p.instanceCount = INVALID_IND_32 →
      ∃ msg, validateData compat p = .error msg) ∧
    (∀ (s : Int) (ib : GLAttributeBuffer) (L : Nat),
      (∀ u ∈ p.uniforms, u.location ≠ -1 → u.isSet = true) →
      (∀ a ∈ p.attributes, a.location ≠ -1 → attrGoodWith compat s a) →
      (∀ t ∈ p.textures, t.location ≠ -1 → t.isSet = true) →
      ¬((p.drawMode = DrawMode.TrianglesInstanced ∨
          p.drawMode = DrawMode.TriangleStripInstanced) ∧
        p.instanceCount = INVALID_IND_32) →
      p.useIndex = true → p.indexBuffer = some ib →
      ib.dataSize = (L : Int) → p.indexSizeMult * L < 2 ^ 32 →
      validateData compat p =
        .ok { p with drawDataLength := p.indexSizeMult * L }) ∧
    (∀ (L : Nat),
      (∀ u ∈ p.uniforms, u.location ≠ -1 → u.isSet = true) →
      (∀ a ∈ p.attributes, a.location ≠ -1 → attrGoodWith compat (L : Int) a) →
      (∀ t ∈ p.textures, t.location ≠ -1 → t.isSet = true) →
      ¬((p.drawMode = DrawMode.TrianglesInstanced ∨
          p.drawMode = DrawMode.TriangleStripInstanced) ∧
        p.instanceCount = INVALID_IND_32) →
      p.useIndex = false →
      p.attributes.any (fun a => a.location ≠ -1) = true →
      L < 2 ^ 32 →
      validateData compat p = .ok { p with drawDataLength := L }) := by
  have hmod : ∀ K : Nat, K < 2 ^ 32 → (((K : Int)) % ((2 : Int) ^ 32)).toNat = K := by
    intro K hK
    omega
  refine ⟨?_, ?_, ?_, ?_, ?_, ?_, ?_, ?_, ?_⟩
  · rintro ⟨u, hu, hul, hus⟩
    obtain ⟨msg, hmsg⟩ : ∃ msg, validateUniforms p.uniforms = .error msg := by
      apply except_not_ok
      intro v hv
      cases v
      have := (validateUniforms_ok_iff _).mp hv
      rw [this u hu hul] at hus
      cases hus
    exact ⟨msg, by simp only [validateData, hmsg, exceptErrBind]⟩
  · rintro ⟨a, ha, hal, hab⟩
    cases hvu : validateUniforms p.uniforms with
    | error msg => exact ⟨msg, by simp only [validateData, hvu, exceptErrBind]⟩
    | ok v =>
      cases v
      obtain ⟨msg, hmsg⟩ :=
        validateAttributes_bad compat p.attributes a ha hal (Or.inl hab) (-1)
      exact ⟨msg, by simp only [validateData, hvu, hmsg, exceptOkBind, exceptErrBind]⟩
  · rintro ⟨a, ha, hal, buff, hab, hneg⟩
    cases hvu : validateUniforms p.uniforms with
    | error msg => exact ⟨msg, by simp only [validateData, hvu, exceptErrBind]⟩
    | ok v =>
      cases v
      obtain ⟨msg, hmsg⟩ := validateAttributes_bad compat p.attributes a ha hal
        (Or.inr ⟨buff, hab, hneg⟩) (-1)
      exact ⟨msg, by simp only [validateData, hvu, hmsg, exceptOkBind, exceptErrBind]⟩
  · rintro hcompat ⟨a, ha, b, hb, hal, hbl, buffa, buffb, hba, hbb, hq⟩
    cases hvu : validateUniforms p.uniforms with
    | error msg => exact ⟨msg, by simp only [validateData, hvu, exceptErrBind]⟩
    | ok v =>
      cases v
      obtain ⟨msg, hmsg⟩ := validateAttributes_inconsistent compat hcompat p.attributes
        a b ha hb hal hbl buffa buffb hba hbb hq (-1)
      exact ⟨msg, by simp only [validateData, hvu, hmsg, exceptOkBind, exceptErrBind]⟩
  · rintro ⟨t, ht, htl, hts⟩
    cases hvu : validateUniforms p.uniforms with
    | error msg => exact ⟨msg, by simp only [validateData, hvu, exceptErrBind]⟩
    | ok v =>
      cases v
      cases hva : validateAttributes compat p.attributes (-1) with
      | error msg =>
        exact ⟨msg, by simp only [validateData, hvu, hva, exceptOkBind, exceptErrBind]⟩
      | ok s =>
        obtain ⟨msg, hmsg⟩ : ∃ msg, validateTextures p.textures = .error msg := by
          apply except_not_ok
          intro v hv
          cases v
          have := (validateTextures_ok_iff _).mp hv
          rw [this t ht htl] at hts
          cases hts
        exact ⟨msg,
          by simp only [validateData, hvu, hva, hmsg, exceptOkBind, exceptErrBind]⟩
  · intro hidx hib
    cases hvu : validateUniforms p.uniforms with
    | error msg => exact ⟨msg, by simp only [validateData, hvu, exceptErrBind]⟩
    | ok v =>
      cases v
      cases hva : validateAttributes compat p.attributes (-1) with
      | error msg =>
        exact ⟨msg, by simp only [validateData, hvu, hva, exceptOkBind, exceptErrBind]⟩
      | ok s =>
        cases hvt : validateTextures p.textures with
        | error msg =>
          exact ⟨msg,
            by simp only [validateData, hvu, hva, hvt, exceptOkBind, exceptErrBind]⟩
        | ok v2 =>
          cases v2
          refine ⟨"Index buffer has not been filled", ?_⟩
          simp only [validateData, hvu, hva, hvt, hib, exceptOkBind]
          rw [if_pos hidx]
  · intro hdm hcnt
    cases hvu : validateUniforms p.uniforms with
    | error msg => exact ⟨msg, by simp only [validateData, hvu, exceptErrBind]⟩
    | ok v =>
      cases v
      cases hva : validateAttributes compat p.attributes (-1) with
      | error msg =>
        exact ⟨msg, by simp only [validateData, hvu, hva, exceptOkBind, exceptErrBind]⟩
      | ok s =>
        cases hvt : validateTextures p.textures with
        | error msg =>
          exact ⟨msg,
            by simp only [validateData, hvu, hva, hvt, exceptOkBind, exceptErrBind]⟩
        | ok v2 =>
          cases v2
          have hcond : ((p.drawMode = DrawMode.TrianglesInstanced ||
              p.drawMode = DrawMode.TriangleStripInstanced) &&
              p.instanceCount = INVALID_IND_32) = true := by
            simp only [Bool.and_eq_true, Bool.or_eq_true, decide_eq_true_eq]
            exact ⟨hdm, hcnt⟩
          cases hib : p.indexBuffer with
          | none =>
            by_cases hidx : p.useIndex = true
            · refine ⟨"Index buffer has not been filled", ?_⟩
              simp only [validateData, hvu, hva, hvt, hib, exceptOkBind]
              rw [if_pos hidx]
            · refine ⟨"Must set instance count to use instanced drawing", ?_⟩
              simp only [validateData, hvu, hva, hvt, hib, exceptOkBind]
              rw [if_neg hidx, if_pos hcond]
          | some ib =>
            refine ⟨"Must set instance count to use instanced drawing", ?_⟩
            simp only [validateData, hvu, hva, hvt, hib, exceptOkBind]
            rw [if_pos hcond]
  · intro s ib L hu ha ht hinst hidx hib hds hlt
    have hcore := (validateData_success_core compat p s hu ha ht hinst).1 ib hidx hib
    rw [hds] at hcore
    have h1 : ((p.indexSizeMult : Int) * (L : Int)) =
        ((p.indexSizeMult * L : Nat) : Int) := by push_cast; ring
    rw [h1, hmod _ hlt] at hcore
    exact hcore
  · intro L hu ha ht hinst hidx hany hlt
    have hcore := (validateData_success_core compat p (L : Int) hu ha ht hinst).2 hidx
    rw [hany] at hcore
    rw [if_pos rfl, hmod _ hlt] at hcore
    exact hcore

end PsPlus

namespace PsPlus

open GLShaderProgram



theorem C8_validateData_witness :
    validateData (fun _ _ => 1) validProgram =
      .ok { validProgram with drawDataLength := 3 } :=
  (C8_validateData (fun _ _ => 1) validProgram).2.2.2.2.2.2.2.2 3
    (by intro u hu hul; simp only [validProgram, List.mem_singleton] at hu; subst hu; rfl)
    (by
      intro a ha hal
      simp only [validProgram, List.mem_singleton] at ha
      subst ha
      exact ⟨_, rfl, by decide, by decide⟩)
    (by intro t ht htl; simp [validProgram] at ht)
    (by decide) rfl rfl (by decide)

end PsPlus

namespace PsPlus

namespace GLCompiledProgram



lemma lookupAttrType_eq_none (l : List GLShaderAttribute) (name : String) :
    lookupAttrType l name = none ↔ name ∉ l.map (·.name) := by
  unfold lookupAttrType
  rw [Option.map_eq_none', List.find?_eq_none]
  simp only [List.mem_map, decide_eq_true_eq]
  constructor
  · rintro h ⟨a, ha, rfl⟩
    exact h a ha rfl
  · intro h a ha hn
    exact h ⟨a, ha, hn⟩

lemma addUniqueAttribute_ok_shape (n : ShaderSpecAttribute)
    (l l' : List GLShaderAttribute) (h : addUniqueAttribute n l = .ok l') :
    (lookupAttrType l n.name = some n.type ∧ l' = l) ∨
    (lookupAttrType l n.name = none ∧
      l' = l ++ [{ name := n.name, type := n.type, arrayCount := n.arrayCount,
                   location := -1, buff := none }]) := by
  induction l generalizing l' with
  | nil =>
    right
    exact ⟨rfl, (Except.ok.inj h).symm⟩
  | cons a rest ih =>
    unfold addUniqueAttribute at h
    by_cases hn : a.name = n.name
    · rw [if_pos hn] at h
      by_cases ht : a.type ≠ n.type
      · rw [if_pos ht] at h
        exact Except.noConfusion h
      · rw [if_neg ht] at h
        push_neg at ht
        left
        refine ⟨?_, (Except.ok.inj h).symm⟩
        unfold lookupAttrType
        rw [List.find?_cons_of_pos _ (by simp [hn])]
        simp [ht]
    · rw [if_neg hn] at h
      cases hrest : addUniqueAttribute n rest with
      | error msg => rw [hrest] at h; exact Except.noConfusion h
      | ok rest' =>
        rw [hrest] at h
        have hl' : l' = a :: rest' := (Except.ok.inj h).symm
        rcases ih rest' hrest with ⟨hfound, hr⟩ | ⟨hnone, hr⟩
        · left
          refine ⟨?_, by rw [hl', hr]⟩
          unfold lookupAttrType at hfound ⊢
          rw [List.find?_cons_of_neg _ (by simp [hn])]
          exact hfound
        · right
          refine ⟨?_, by rw [hl', hr]; rfl⟩
          unfold lookupAttrType at hnone ⊢
          rw [List.find?_cons_of_neg _ (by simp [hn])]
          exact hnone

lemma addUniqueAttribute_idem (n : ShaderSpecAttribute)
    (l : List GLShaderAttribute) (a0 : GLShaderAttribute)
    (hfind : l.find? (fun a => decide (a.name = n.name)) = some a0)
    (hty : a0.type = n.type) :
    addUniqueAttribute n l = .ok l := by
  induction l with
  | nil => cases hfind
  | cons a rest ih =>
    unfold addUniqueAttribute
    by_cases hn : a.name = n.name
    · rw [List.find?_cons_of_pos _ (by simp [hn])] at hfind
      have : a = a0 := Option.some.inj hfind
      rw [if_pos hn, if_neg (by rw [this, hty]; simp)]
    · rw [List.find?_cons_of_neg _ (by simp [hn])] at hfind
      rw [if_neg hn, ih hfind]
      rfl

lemma addUniqueAttribute_conflict (n : ShaderSpecAttribute)
    (l : List GLShaderAttribute) (a0 : GLShaderAttribute)
    (hfind : l.find? (fun a => decide (a.name = n.name)) = some a0)
    (hty : a0.type ≠ n.type) :
    addUniqueAttribute n l =
      .error ("attribute " ++ a0.name ++ " appears twice in program with different types") := by
  induction l with
  | nil => cases hfind
  | cons a rest ih =>
    unfold addUniqueAttribute
    by_cases hn : a.name = n.name
    · rw [List.find?_cons_of_pos _ (by simp [hn])] at hfind
      have ha : a = a0 := Option.some.inj hfind
      rw [if_pos hn, if_pos (by rw [ha]; simpa using hty), ha]
    · rw [List.find?_cons_of_neg _ (by simp [hn])] at hfind
      rw [if_neg hn, ih hfind]
      rfl

end GLCompiledProgram

end PsPlus

namespace PsPlus

namespace GLCompiledProgram

lemma lookupAttrType_append (l : List GLShaderAttribute) (x : GLShaderAttribute)
    (name : String) (h : lookupAttrType l name = some t) :
    lookupAttrType (l ++ [x]) name = some t := by
  unfold lookupAttrType at h ⊢
  rw [List.find?_append]
  cases hf : l.find? (fun a => decide (a.name = name)) with
  | none => rw [hf] at h; cases h
  | some q => rw [hf] at h; simpa using h

lemma addUniqueAttribute_lookup (n : ShaderSpecAttribute)
    (l l' : List GLShaderAttribute) (h : addUniqueAttribute n l = .ok l') :
    lookupAttrType l' n.name = some n.type := by
  rcases addUniqueAttribute_ok_shape n l l' h with ⟨hfound, rfl⟩ | ⟨hnone, rfl⟩
  · exact hfound
  · unfold lookupAttrType at hnone ⊢
    rw [List.find?_append]
    rw [Option.map_eq_none'] at hnone
    rw [hnone]
    simp

lemma addUniqueAttribute_stable (n : ShaderSpecAttribute)
    (l l' : List GLShaderAttribute) (h : addUniqueAttribute n l = .ok l')
    (name : String) (t : RenderDataType) (hl : lookupAttrType l name = some t) :
    lookupAttrType l' name = some t := by
  rcases addUniqueAttribute_ok_shape n l l' h with ⟨-, rfl⟩ | ⟨-, rfl⟩
  · exact hl
  · exact lookupAttrType_append l _ name hl

lemma addUniqueAttribute_nodup (n : ShaderSpecAttribute)
    (l l' : List GLShaderAttribute) (h : addUniqueAttribute n l = .ok l')
    (hnd : (l.map (·.name)).Nodup) : (l'.map (·.name)).Nodup := by
  rcases addUniqueAttribute_ok_shape n l l' h with ⟨-, rfl⟩ | ⟨hnone, rfl⟩
  · exact hnd
  · rw [List.map_append]
    simp only [List.map_cons, List.map_nil]
    rw [List.nodup_append]
    exact ⟨hnd, List.nodup_singleton _,
      by
        intro x hx
        simp only [List.mem_singleton]
        intro hxn
        subst hxn
        exact (lookupAttrType_eq_none l n.name).mp hnone hx⟩

lemma foldAttrs_props (decls : List ShaderSpecAttribute) :
    ∀ (l l' : List GLShaderAttribute),
    decls.foldlM (fun acc d => addUniqueAttribute d acc) l = .ok l' →
    (∀ name t, lookupAttrType l name = some t → lookupAttrType l' name = some t) ∧
    (∀ d ∈ decls, lookupAttrType l' d.name = some d.type) ∧
    ((l.map (·.name)).Nodup → (l'.map (·.name)).Nodup) := by
  induction decls with
  | nil =>
    intro l l' h
    have : l = l' := Except.ok.inj h
    subst this
    exact ⟨fun _ _ hh => hh, by simp, fun hh => hh⟩
  | cons d rest ih =>
    intro l l' h
    rw [List.foldlM_cons] at h
    cases hd : addUniqueAttribute d l with
    | error msg => rw [hd] at h; exact Except.noConfusion h
    | ok l1 =>
      rw [hd, exceptOkBind] at h
      obtain ⟨hstab, hpres, hnd⟩ := ih l1 l' h
      refine ⟨?_, ?_, ?_⟩
      · intro name t hl
        exact hstab name t (addUniqueAttribute_stable d l l1 hd name t hl)
      · intro x hx
        rcases List.mem_cons.mp hx with h1 | h1
        · subst h1
          exact hstab x.name x.type (addUniqueAttribute_lookup x l l1 hd)
        · exact hpres x h1
      · intro hh
        exact hnd (addUniqueAttribute_nodup d l l1 hd hh)

lemma mergeStage_attrs (acc : Iface) (s : ShaderStageSpecification)
    (iface : Iface) (h : mergeStage acc s = .ok iface) :
    s.attributes.foldlM (fun acc d => addUniqueAttribute d acc) acc.attributes =
      .ok iface.attributes := by
  unfold mergeStage at h
  cases hu : s.uniforms.foldlM (fun l u => addUniqueUniform u l) acc.uniforms with
  | error msg => rw [hu, exceptErrBind] at h; exact Except.noConfusion h
  | ok us =>
    rw [hu, exceptOkBind] at h
    cases ha : s.attributes.foldlM (fun l a => addUniqueAttribute a l) acc.attributes with
    | error msg => rw [ha, exceptErrBind] at h; exact Except.noConfusion h
    | ok as =>
      rw [ha, exceptOkBind] at h
      cases ht : s.textures.foldlM (fun l t => addUniqueTexture t l) acc.textures with
      | error msg => rw [ht, exceptErrBind] at h; exact Except.noConfusion h
      | ok ts =>
        rw [ht, exceptOkBind] at h
        have : iface = ⟨us, as, ts⟩ := (Except.ok.inj h).symm
        rw [this]



lemma foldStages_attrs (stages : List ShaderStageSpecification) :
    ∀ (acc iface : Iface), stages.foldlM mergeStage acc = .ok iface →
    (∀ name t, lookupAttrType acc.attributes name = some t →
      lookupAttrType iface.attributes name = some t) ∧
    (∀ d ∈ declsA stages, lookupAttrType iface.attributes d.name = some d.type) ∧
    ((acc.attributes.map (·.name)).Nodup → (iface.attributes.map (·.name)).Nodup) := by
  induction stages with
  | nil =>
    intro acc iface h
    have : acc = iface := Except.ok.inj h
    subst this
    exact ⟨fun _ _ hh => hh, by simp [declsA], fun hh => hh⟩
  | cons s rest ih =>
    intro acc iface h
    rw [List.foldlM_cons] at h
    cases hs : mergeStage acc s with
    | error msg => rw [hs] at h; exact Except.noConfusion h
    | ok acc1 =>
      rw [hs, exceptOkBind] at h
      obtain ⟨hstab2, hpres2, hnd2⟩ := ih acc1 iface h
      obtain ⟨hstab1, hpres1, hnd1⟩ := foldAttrs_props s.attributes acc.attributes
        acc1.attributes (mergeStage_attrs acc s acc1 hs)
      refine ⟨?_, ?_, ?_⟩
      · intro name t hl
        exact hstab2 name t (hstab1 name t hl)
      · intro d hd
        have : d ∈ s.attributes ∨ d ∈ declsA rest := by
          unfold declsA at hd ⊢
          simp only [List.map_cons, List.flatten_cons, List.mem_append] at hd
          exact hd
        rcases this with h1 | h1
        · exact hstab2 d.name d.type (hpres1 d h1)
        · exact hpres2 d h1
      · intro hh
        exact hnd2 (hnd1 hh)

end GLCompiledProgram

end PsPlus

namespace PsPlus

namespace GLCompiledProgram



lemma lookupUniformType_eq_none (l : List GLShaderUniform) (name : String) :
    lookupUniformType l name = none ↔ name ∉ l.map (·.name) := by
  unfold lookupUniformType
  rw [Option.map_eq_none', List.find?_eq_none]
  simp only [List.mem_map, decide_eq_true_eq]
  constructor
  · rintro h ⟨a, ha, rfl⟩
    exact h a ha rfl
  · intro h a ha hn
    exact h ⟨a, ha, hn⟩

lemma addUniqueUniform_ok_shape (n : ShaderSpecUniform)
    (l l' : List GLShaderUniform) (h : addUniqueUniform n l = .ok l') :
    (lookupUniformType l n.name = some n.type ∧ l' = l) ∨
    (lookupUniformType l n.name = none ∧
      l' = l ++ [{ name := n.name, type := n.type, isSet := false,
                   location := 777 }]) := by
  induction l generalizing l' with
  | nil =>
    right
    exact ⟨rfl, (Except.ok.inj h).symm⟩
  | cons a rest ih =>
    unfold addUniqueUniform at h
    by_cases hn : a.name = n.name
    · rw [if_pos hn] at h
      by_cases ht : a.type ≠ n.type
      · rw [if_pos ht] at h
        exact Except.noConfusion h
      · rw [if_neg ht] at h
        push_neg at ht
        left
        refine ⟨?_, (Except.ok.inj h).symm⟩
        unfold lookupUniformType
        rw [List.find?_cons_of_pos _ (by simp [hn])]
        simp [ht]
    · rw [if_neg hn] at h
      cases hrest : addUniqueUniform n rest with
      | error msg => rw [hrest] at h; exact Except.noConfusion h
      | ok rest' =>
        rw [hrest] at h
        have hl' : l' = a :: rest' := (Except.ok.inj h).symm
        rcases ih rest' hrest with ⟨hfound, hr⟩ | ⟨hnone, hr⟩
        · left
          refine ⟨?_, by rw [hl', hr]⟩
          unfold lookupUniformType at hfound ⊢
          rw [List.find?_cons_of_neg _ (by simp [hn])]
          exact hfound
        · right
          refine ⟨?_, by rw [hl', hr]; rfl⟩
          unfold lookupUniformType at hnone ⊢
          rw [List.find?_cons_of_neg _ (by simp [hn])]
          exact hnone

lemma addUniqueUniform_idem (n : ShaderSpecUniform)
    (l : List GLShaderUniform) (a0 : GLShaderUniform)
    (hfind : l.find? (fun a => decide (a.name = n.name)) = some a0)
    (hty : a0.type = n.type) :
    addUniqueUniform n l = .ok l := by
  induction l with
  | nil => cases hfind
  | cons a rest ih =>
    unfold addUniqueUniform
    by_cases hn : a.name = n.name
    · rw [List.find?_cons_of_pos _ (by simp [hn])] at hfind
      have : a = a0 := Option.some.inj hfind
      rw [if_pos hn, if_neg (by rw [this, hty]; simp)]
    · rw [List.find?_cons_of_neg _ (by simp [hn])] at hfind
      rw [if_neg hn, ih hfind]
      rfl

lemma addUniqueUniform_conflict (n : ShaderSpecUniform)
    (l : List GLShaderUniform) (a0 : GLShaderUniform)
    (hfind : l.find? (fun a => decide (a.name = n.name)) = some a0)
    (hty : a0.type ≠ n.type) :
    addUniqueUniform n l =
      .error ("uniform " ++ a0.name ++ " appears twice in program with different types") := by
  induction l with
  | nil => cases hfind
  | cons a rest ih =>
    unfold addUniqueUniform
    by_cases hn : a.name = n.name
    · rw [List.find?_cons_of_pos _ (by simp [hn])] at hfind
      have ha : a = a0 := Option.some.inj hfind
      rw [if_pos hn, if_pos (by rw [ha]; simpa using hty), ha]
    · rw [List.find?_cons_of_neg _ (by simp [hn])] at hfind
      rw [if_neg hn, ih hfind]
      rfl

lemma lookupUniformType_append (l : List GLShaderUniform) (x : GLShaderUniform)
    (name : String) (h : lookupUniformType l name = some t) :
    lookupUniformType (l ++ [x]) name = some t := by
  unfold lookupUniformType at h ⊢
  rw [List.find?_append]
  cases hf : l.find? (fun a => decide (a.name = name)) with
  | none => rw [hf] at h; cases h
  | some q => rw [hf] at h; simpa using h

lemma addUniqueUniform_lookup (n : ShaderSpecUniform)
    (l l' : List GLShaderUniform) (h : addUniqueUniform n l = .ok l') :
    lookupUniformType l' n.name = some n.type := by
  rcases addUniqueUniform_ok_shape n l l' h with ⟨hfound, rfl⟩ | ⟨hnone, rfl⟩
  · exact hfound
  · unfold lookupUniformType at hnone ⊢
    rw [List.find?_append]
    rw [Option.map_eq_none'] at hnone
    rw [hnone]
    simp

lemma addUniqueUniform_stable (n : ShaderSpecUniform)
    (l l' : List GLShaderUniform) (h : addUniqueUniform n l = .ok l')
    (name : String) (t : RenderDataType) (hl : lookupUniformType l name = some t) :
    lookupUniformType l' name = some t := by
  rcases addUniqueUniform_ok_shape n l l' h with ⟨-, rfl⟩ | ⟨-, rfl⟩
  · exact hl
  · exact lookupUniformType_append l _ name hl

lemma addUniqueUniform_nodup (n : ShaderSpecUniform)
    (l l' : List GLShaderUniform) (h : addUniqueUniform n l = .ok l')
    (hnd : (l.map (·.name)).Nodup) : (l'.map (·.name)).Nodup := by
  rcases addUniqueUniform_ok_shape n l l' h with ⟨-, rfl⟩ | ⟨hnone, rfl⟩
  · exact hnd
  · rw [List.map_append]
    simp only [List.map_cons, List.map_nil]
    rw [List.nodup_append]
    exact ⟨hnd, List.nodup_singleton _,
      by
        intro x hx
        simp only [List.mem_singleton]
        intro hxn
        subst hxn
        exact (lookupUniformType_eq_none l n.name).mp hnone hx⟩

lemma foldUniforms_props (decls : List ShaderSpecUniform) :
    ∀ (l l' : List GLShaderUniform),
    decls.foldlM (fun acc d => addUniqueUniform d acc) l = .ok l' →
    (∀ name t, lookupUniformType l name = some t → lookupUniformType l' name = some t) ∧
    (∀ d ∈ decls, lookupUniformType l' d.name = some d.type) ∧
    ((l.map (·.name)).Nodup → (l'.map (·.name)).Nodup) := by
  induction decls with
  | nil =>
    intro l l' h
    have : l = l' := Except.ok.inj h
    subst this
    exact ⟨fun _ _ hh => hh, by simp, fun hh => hh⟩
  | cons d rest ih =>
    intro l l' h
    rw [List.foldlM_cons] at h
    cases hd : addUniqueUniform d l with
    | error msg => rw [hd] at h; exact Except.noConfusion h
    | ok l1 =>
      rw [hd, exceptOkBind] at h
      obtain ⟨hstab, hpres, hnd⟩ := ih l1 l' h
      refine ⟨?_, ?_, ?_⟩
      · intro name t hl
        exact hstab name t (addUniqueUniform_stable d l l1 hd name t hl)
      · intro x hx
        rcases List.mem_cons.mp hx with h1 | h1
        · subst h1
          exact hstab x.name x.type (addUniqueUniform_lookup x l l1 hd)
        · exact hpres x h1
      · intro hh
        exact hnd (addUniqueUniform_nodup d l l1 hd hh)

lemma mergeStage_uniforms (acc : Iface) (s : ShaderStageSpecification)
    (iface : Iface) (h : mergeStage acc s = .ok iface) :
    s.uniforms.foldlM (fun acc d => addUniqueUniform d acc) acc.uniforms =
      .ok iface.uniforms := by
  unfold mergeStage at h
  cases hu : s.uniforms.foldlM (fun l u => addUniqueUniform u l) acc.uniforms with
  | error msg => rw [hu, exceptErrBind] at h; exact Except.noConfusion h
  | ok us =>
    rw [hu, exceptOkBind] at h
    cases ha : s.attributes.foldlM (fun l a => addUniqueAttribute a l) acc.attributes with
    | error msg => rw [ha, exceptErrBind] at h; exact Except.noConfusion h
    | ok as =>
      rw [ha, exceptOkBind] at h
      cases ht : s.textures.foldlM (fun l t => addUniqueTexture t l) acc.textures with
      | error msg => rw [ht, exceptErrBind] at h; exact Except.noConfusion h
      | ok ts =>
        rw [ht, exceptOkBind] at h
        have : iface = ⟨us, as, ts⟩ := (Except.ok.inj h).symm
        rw [this]



lemma foldStages_uniforms (stages : List ShaderStageSpecification) :
    ∀ (acc iface : Iface), stages.foldlM mergeStage acc = .ok iface →
    (∀ name t, lookupUniformType acc.uniforms name = some t →
      lookupUniformType iface.uniforms name = some t) ∧
    (∀ d ∈ declsU stages, lookupUniformType iface.uniforms d.name = some d.type) ∧
    ((acc.uniforms.map (·.name)).Nodup → (iface.uniforms.map (·.name)).Nodup) := by
  induction stages with
  | nil =>
    intro acc iface h
    have : acc = iface := Except.ok.inj h
    subst this
    exact ⟨fun _ _ hh => hh, by simp [declsU], fun hh => hh⟩
  | cons s rest ih =>
    intro acc iface h
    rw [List.foldlM_cons] at h
    cases hs : mergeStage acc s with
    | error msg => rw [hs] at h; exact Except.noConfusion h
    | ok acc1 =>
      rw [hs, exceptOkBind] at h
      obtain ⟨hstab2, hpres2, hnd2⟩ := ih acc1 iface h
      obtain ⟨hstab1, hpres1, hnd1⟩ := foldUniforms_props s.uniforms acc.uniforms
        acc1.uniforms (mergeStage_uniforms acc s acc1 hs)
      refine ⟨?_, ?_, ?_⟩
      · intro name t hl
        exact hstab2 name t (hstab1 name t hl)
      · intro d hd
        have : d ∈ s.uniforms ∨ d ∈ declsU rest := by
          unfold declsU at hd ⊢
          simp only [List.map_cons, List.flatten_cons, List.mem_append] at hd
          exact hd
        rcases this with h1 | h1
        · exact hstab2 d.name d.type (hpres1 d h1)
        · exact hpres2 d h1
      · intro hh
        exact hnd2 (hnd1 hh)

end GLCompiledProgram

end PsPlus

namespace PsPlus

namespace GLCompiledProgram



lemma lookupTextureDim_eq_none (l : List GLShaderTexture) (name : String) :
    lookupTextureDim l name = none ↔ name ∉ l.map (·.name) := by
  unfold lookupTextureDim
  rw [Option.map_eq_none', List.find?_eq_none]
  simp only [List.mem_map, decide_eq_true_eq]
  constructor
  · rintro h ⟨a, ha, rfl⟩
    exact h a ha rfl
  · intro h a ha hn
    exact h ⟨a, ha, hn⟩

lemma addUniqueTexture_ok_shape (n : ShaderSpecTexture)
    (l l' : List GLShaderTexture) (h : addUniqueTexture n l = .ok l') :
    (lookupTextureDim l n.name = some n.dim ∧ l' = l) ∨
    (lookupTextureDim l n.name = none ∧
      l' = l ++ [{ name := n.name, dim := n.dim, index := 777, isSet := false,
                   textureBuffer := none, location := 777 }]) := by
  induction l generalizing l' with
  | nil =>
    right
    exact ⟨rfl, (Except.ok.inj h).symm⟩
  | cons a rest ih =>
    unfold addUniqueTexture at h
    by_cases hn : a.name = n.name
    · rw [if_pos hn] at h
      by_cases ht : a.dim ≠ n.dim
      · rw [if_pos ht] at h
        exact Except.noConfusion h
      · rw [if_neg ht] at h
        push_neg at ht
        left
        refine ⟨?_, (Except.ok.inj h).symm⟩
        unfold lookupTextureDim
        rw [List.find?_cons_of_pos _ (by simp [hn])]
        simp [ht]
    · rw [if_neg hn] at h
      cases hrest : addUniqueTexture n rest with
      | error msg => rw [hrest] at h; exact Except.noConfusion h
      | ok rest' =>
        rw [hrest] at h
        have hl' : l' = a :: rest' := (Except.ok.inj h).symm
        rcases ih rest' hrest with ⟨hfound, hr⟩ | ⟨hnone, hr⟩
        · left
          refine ⟨?_, by rw [hl', hr]⟩
          unfold lookupTextureDim at hfound ⊢
          rw [List.find?_cons_of_neg _ (by simp [hn])]
          exact hfound
        · right
          refine ⟨?_, by rw [hl', hr]; rfl⟩
          unfold lookupTextureDim at hnone ⊢
          rw [List.find?_cons_of_neg _ (by simp [hn])]
          exact hnone

lemma addUniqueTexture_idem (n : ShaderSpecTexture)
    (l : List GLShaderTexture) (a0 : GLShaderTexture)
    (hfind : l.find? (fun a => decide (a.name = n.name)) = some a0)
    (hty : a0.dim = n.dim) :
    addUniqueTexture n l = .ok l := by
  induction l with
  | nil => cases hfind
  | cons a rest ih =>
    unfold addUniqueTexture
    by_cases hn : a.name = n.name
    · rw [List.find?_cons_of_pos _ (by simp [hn])] at hfind
      have : a = a0 := Option.some.inj hfind
      rw [if_pos hn, if_neg (by rw [this, hty]; simp)]
    · rw [List.find?_cons_of_neg _ (by simp [hn])] at hfind
      rw [if_neg hn, ih hfind]
      rfl

lemma addUniqueTexture_conflict (n : ShaderSpecTexture)
    (l : List GLShaderTexture) (a0 : GLShaderTexture)
    (hfind : l.find? (fun a => decide (a.name = n.name)) = some a0)
    (hty : a0.dim ≠ n.dim) :
    addUniqueTexture n l =
      .error ("texture " ++ a0.name ++ " appears twice in program with different dimensions") := by
  induction l with
  | nil => cases hfind
  | cons a rest ih =>
    unfold addUniqueTexture
    by_cases hn : a.name = n.name
    · rw [List.find?_cons_of_pos _ (by simp [hn])] at hfind
      have ha : a = a0 := Option.some.inj hfind
      rw [if_pos hn, if_pos (by rw [ha]; simpa using hty), ha]
    · rw [List.find?_cons_of_neg _ (by simp [hn])] at hfind
      rw [if_neg hn, ih hfind]
      rfl

lemma lookupTextureDim_append (l : List GLShaderTexture) (x : GLShaderTexture)
    (name : String) (h : lookupTextureDim l name = some t) :
    lookupTextureDim (l ++ [x]) name = some t := by
  unfold lookupTextureDim at h ⊢
  rw [List.find?_append]
  cases hf : l.find? (fun a => decide (a.name = name)) with
  | none => rw [hf] at h; cases h
  | some q => rw [hf] at h; simpa using h

lemma addUniqueTexture_lookup (n : ShaderSpecTexture)
    (l l' : List GLShaderTexture) (h : addUniqueTexture n l = .ok l') :
    lookupTextureDim l' n.name = some n.dim := by
  rcases addUniqueTexture_ok_shape n l l' h with ⟨hfound, rfl⟩ | ⟨hnone, rfl⟩
  · exact hfound
  · unfold lookupTextureDim at hnone ⊢
    rw [List.find?_append]
    rw [Option.map_eq_none'] at hnone
    rw [hnone]
    simp

lemma addUniqueTexture_stable (n : ShaderSpecTexture)
    (l l' : List GLShaderTexture) (h : addUniqueTexture n l = .ok l')
    (name : String) (t : Int) (hl : lookupTextureDim l name = some t) :
    lookupTextureDim l' name = some t := by
  rcases addUniqueTexture_ok_shape n l l' h with ⟨-, rfl⟩ | ⟨-, rfl⟩
  · exact hl
  · exact lookupTextureDim_append l _ name hl

lemma addUniqueTexture_nodup (n : ShaderSpecTexture)
    (l l' : List GLShaderTexture) (h : addUniqueTexture n l = .ok l')
    (hnd : (l.map (·.name)).Nodup) : (l'.map (·.name)).Nodup := by
  rcases addUniqueTexture_ok_shape n l l' h with ⟨-, rfl⟩ | ⟨hnone, rfl⟩
  · exact hnd
  · rw [List.map_append]
    simp only [List.map_cons, List.map_nil]
    rw [List.nodup_append]
    exact ⟨hnd, List.nodup_singleton _,
      by
        intro x hx
        simp only [List.mem_singleton]
        intro hxn
        subst hxn
        exact (lookupTextureDim_eq_none l n.name).mp hnone hx⟩

lemma foldTextures_props (decls : List ShaderSpecTexture) :
    ∀ (l l' : List GLShaderTexture),
    decls.foldlM (fun acc d => addUniqueTexture d acc) l = .ok l' →
    (∀ name t, lookupTextureDim l name = some t → lookupTextureDim l' name = some t) ∧
    (∀ d ∈ decls, lookupTextureDim l' d.name = some d.dim) ∧
    ((l.map (·.name)).Nodup → (l'.map (·.name)).Nodup) := by
  induction decls with
  | nil =>
    intro l l' h
    have : l = l' := Except.ok.inj h
    subst this
    exact ⟨fun _ _ hh => hh, by simp, fun hh => hh⟩
  | cons d rest ih =>
    intro l l' h
    rw [List.foldlM_cons] at h
    cases hd : addUniqueTexture d l with
    | error msg => rw [hd] at h; exact Except.noConfusion h
    | ok l1 =>
      rw [hd, exceptOkBind] at h
      obtain ⟨hstab, hpres, hnd⟩ := ih l1 l' h
      refine ⟨?_, ?_, ?_⟩
      · intro name t hl
        exact hstab name t (addUniqueTexture_stable d l l1 hd name t hl)
      · intro x hx
        rcases List.mem_cons.mp hx with h1 | h1
        · subst h1
          exact hstab x.name x.dim (addUniqueTexture_lookup x l l1 hd)
        · exact hpres x h1
      · intro hh
        exact hnd (addUniqueTexture_nodup d l l1 hd hh)

lemma mergeStage_textures (acc : Iface) (s : ShaderStageSpecification)
    (iface : Iface) (h : mergeStage acc s = .ok iface) :
    s.textures.foldlM (fun acc d => addUniqueTexture d acc) acc.textures =
      .ok iface.textures := by
  unfold mergeStage at h
  cases hu : s.uniforms.foldlM (fun l u => addUniqueUniform u l) acc.uniforms with
  | error msg => rw [hu, exceptErrBind] at h; exact Except.noConfusion h
  | ok us =>
    rw [hu, exceptOkBind] at h
    cases ha : s.attributes.foldlM (fun l a => addUniqueAttribute a l) acc.attributes with
    | error msg => rw [ha, exceptErrBind] at h; exact Except.noConfusion h
    | ok as =>
      rw [ha, exceptOkBind] at h
      cases ht : s.textures.foldlM (fun l t => addUniqueTexture t l) acc.textures with
      | error msg => rw [ht, exceptErrBind] at h; exact Except.noConfusion h
      | ok ts =>
        rw [ht, exceptOkBind] at h
        have : iface = ⟨us, as, ts⟩ := (Except.ok.inj h).symm
        rw [this]



lemma foldStages_textures (stages : List ShaderStageSpecification) :
    ∀ (acc iface : Iface), stages.foldlM mergeStage acc = .ok iface →
    (∀ name t, lookupTextureDim acc.textures name = some t →
      lookupTextureDim iface.textures name = some t) ∧
    (∀ d ∈ declsT stages, lookupTextureDim iface.textures d.name = some d.dim) ∧
    ((acc.textures.map (·.name)).Nodup → (iface.textures.map (·.name)).Nodup) := by
  induction stages with
  | nil =>
    intro acc iface h
    have : acc = iface := Except.ok.inj h
    subst this
    exact ⟨fun _ _ hh => hh, by simp [declsT], fun hh => hh⟩
  | cons s rest ih =>
    intro acc iface h
    rw [List.foldlM_cons] at h
    cases hs : mergeStage acc s with
    | error msg => rw [hs] at h; exact Except.noConfusion h
    | ok acc1 =>
      rw [hs, exceptOkBind] at h
      obtain ⟨hstab2, hpres2, hnd2⟩ := ih acc1 iface h
      obtain ⟨hstab1, hpres1, hnd1⟩ := foldTextures_props s.textures acc.textures
        acc1.textures (mergeStage_textures acc s acc1 hs)
      refine ⟨?_, ?_, ?_⟩
      · intro name t hl
        exact hstab2 name t (hstab1 name t hl)
      · intro d hd
        have : d ∈ s.textures ∨ d ∈ declsT rest := by
          unfold declsT at hd ⊢
          simp only [List.map_cons, List.flatten_cons, List.mem_append] at hd
          exact hd
        rcases this with h1 | h1
        · exact hstab2 d.name d.dim (hpres1 d h1)
        · exact hpres2 d h1
      · intro hh
        exact hnd2 (hnd1 hh)

end GLCompiledProgram

end PsPlus

namespace PsPlus

namespace GLCompiledProgram

lemma construct_ok_fold (stages : List ShaderStageSpecification) (iface : Iface)
    (h : construct stages = .ok iface) :
    stages.foldlM mergeStage ⟨[], [], []⟩ = .ok iface ∧
    iface.attributes.length ≠ 0 := by
  unfold construct at h
  cases hf : stages.foldlM mergeStage ⟨[], [], []⟩ with
  | error msg => rw [hf, exceptErrBind] at h; exact Except.noConfusion h
  | ok iface0 =>
    rw [hf, exceptOkBind] at h
    by_cases hlen : iface0.attributes.length = 0
    · rw [if_pos hlen] at h
      exact Except.noConfusion h
    · rw [if_neg hlen] at h
      have : iface0 = iface := Except.ok.inj h
      subst this
      exact ⟨rfl, hlen⟩

lemma mergeStage_attrs_empty (acc : Iface) (s : ShaderStageSpecification)
    (iface : Iface) (hs : s.attributes = []) (h : mergeStage acc s = .ok iface) :
    iface.attributes = acc.attributes := by
  have := mergeStage_attrs acc s iface h
  rw [hs] at this
  exact (Except.ok.inj this).symm

lemma foldStages_attrs_empty (stages : List ShaderStageSpecification)
    (hempty : ∀ st ∈ stages, st.attributes = []) :
    ∀ (acc iface : Iface), stages.foldlM mergeStage acc = .ok iface →
    iface.attributes = acc.attributes := by
  induction stages with
  | nil =>
    intro acc iface h
    rw [← Except.ok.inj h]
  | cons s rest ih =>
    intro acc iface h
    rw [List.foldlM_cons] at h
    cases hs : mergeStage acc s with
    | error msg => rw [hs] at h; exact Except.noConfusion h
    | ok acc1 =>
      rw [hs, exceptOkBind] at h
      rw [ih (fun st hst => hempty st (by simp [hst])) acc1 iface h]
      exact mergeStage_attrs_empty acc s acc1 (hempty s (by simp)) hs

end GLCompiledProgram

open GLCompiledProgram

/-- C9: merging stage interfaces is idempotent on duplicate declarations of
identical type, a name redeclared with a different type/dimension is a hard
error, the merged interface holds each declared name exactly once with its
declared type, and construction fails when no stage declares an attribute. -/
theorem C9_interface_merge :
    (∀ n l a0, l.find? (fun u => decide (u.name = n.name)) = some a0 →
      a0.type = n.type → addUniqueUniform n l = .ok l) ∧
    (∀ n l a0, l.find? (fun a => decide (a.name = n.name)) = some a0 →
      a0.type = n.type → addUniqueAttribute n l = .ok l) ∧
    (∀ n l a0, l.find? (fun t => decide (t.name = n.name)) = some a0 →
      a0.dim = n.dim → addUniqueTexture n l = .ok l) ∧
    (∀ n l a0, l.find? (fun u => decide (u.name = n.name)) = some a0 →
      a0.type ≠ n.type → ∃ msg, addUniqueUniform n l = .error msg) ∧
    (∀ n l a0, l.find? (fun a => decide (a.name = n.name)) = some a0 →
      a0.type ≠ n.type → ∃ msg, addUniqueAttribute n l = .error msg) ∧
    (∀ n l a0, l.find? (fun t => decide (t.name = n.name)) = some a0 →
      a0.dim ≠ n.dim → ∃ msg, addUniqueTexture n l = .error msg) ∧
    (∀ stages iface, construct stages = .ok iface →
      ((iface.uniforms.map (·.name)).Nodup ∧
        ∀ d ∈ declsU stages, lookupUniformType iface.uniforms d.name = some d.type) ∧
      ((iface.attributes.map (·.name)).Nodup ∧
        ∀ d ∈ declsA stages, lookupAttrType iface.attributes d.name = some d.type) ∧
      ((iface.textures.map (·.name)).Nodup ∧
        ∀ d ∈ declsT stages, lookupTextureDim iface.textures d.name = some d.dim)) ∧
    (∀ stages d1 d2, d1 ∈ declsA stages → d2 ∈ declsA stages →
      d1.name = d2.name → d1.type ≠ d2.type →
      ∃ msg, construct stages = .error msg) ∧
    (∀ stages, (∀ st ∈ stages, st.attributes = []) →
      ∃ msg, construct stages = .error msg) := by
  refine ⟨fun n l a0 h1 h2 => addUniqueUniform_idem n l a0 h1 h2,
    fun n l a0 h1 h2 => addUniqueAttribute_idem n l a0 h1 h2,
    fun n l a0 h1 h2 => addUniqueTexture_idem n l a0 h1 h2,
    fun n l a0 h1 h2 => ⟨_, addUniqueUniform_conflict n l a0 h1 h2⟩,
    fun n l a0 h1 h2 => ⟨_, addUniqueAttribute_conflict n l a0 h1 h2⟩,
    fun n l a0 h1 h2 => ⟨_, addUniqueTexture_conflict n l a0 h1 h2⟩,
    ?_, ?_, ?_⟩
  · intro stages iface h
    obtain ⟨hf, -⟩ := construct_ok_fold stages iface h
    obtain ⟨-, hpU, hndU⟩ := foldStages_uniforms stages ⟨[], [], []⟩ iface hf
    obtain ⟨-, hpA, hndA⟩ := foldStages_attrs stages ⟨[], [], []⟩ iface hf
    obtain ⟨-, hpT, hndT⟩ := foldStages_textures stages ⟨[], [], []⟩ iface hf
    exact ⟨⟨hndU (by simp), hpU⟩, ⟨hndA (by simp), hpA⟩, ⟨hndT (by simp), hpT⟩⟩
  · intro stages d1 d2 h1 h2 hname hty
    apply except_not_ok
    intro iface hok
    obtain ⟨hf, -⟩ := construct_ok_fold stages iface hok
    obtain ⟨-, hpA, -⟩ := foldStages_attrs stages ⟨[], [], []⟩ iface hf
    have e1 := hpA d1 h1
    have e2 := hpA d2 h2
    rw [hname] at e1
    rw [e1] at e2
    exact hty (Option.some.inj e2)
  · intro stages hempty
    apply except_not_ok
    intro iface hok
    obtain ⟨hf, hlen⟩ := construct_ok_fold stages iface hok
    have := foldStages_attrs_empty stages hempty ⟨[], [], []⟩ iface hf
    rw [this] at hlen
    exact hlen rfl

theorem C9_interface_merge_witness :
    addUniqueAttribute ⟨"a_pos", .Vector3Float, 1⟩
        [⟨"a_pos", .Vector3Float, 1, -1, none⟩] =
      .ok [⟨"a_pos", .Vector3Float, 1, -1, none⟩] :=
  C9_interface_merge.2.1 ⟨"a_pos", .Vector3Float, 1⟩
    [⟨"a_pos", .Vector3Float, 1, -1, none⟩]
    ⟨"a_pos", .Vector3Float, 1, -1, none⟩ (by decide) rfl

end PsPlus
